import Mathlib

/-!
Shallow embedding of the emission-factor matcher
(`src/EmissionFactorDatabase-Portable/src/core/matcher.ts` together with the
type declarations in `src/core/types.ts`).

Conventions of the embedding:
* TypeScript `number` values carrying emission intensities, confidences and
  amounts are modelled as `ℚ` (exact arithmetic).
* `await`ed repository calls that may fail are modelled in the `Except ε`
  monad: a thrown error is `Except.error e`, a successful value is
  `Except.ok v`.  The matcher never catches, so every repository call is an
  explicit `match` that propagates `.error`.
* JavaScript truthiness on optional strings (`if (x)` where `x` is
  `string | undefined | null`) is modelled by `jsTruthy`: `none` and
  `some ""` are falsy.
* `x || y` on optional strings is `jsOr`; `x || "lit"` is `jsOrStr`;
  `x || null` in a result position is `jsOrNull`.
-/

set_option maxHeartbeats 1000000
set_option linter.unusedVariables false

-- ===========================================================================
-- Data model (types.ts)
-- ===========================================================================

/-- Emission scope tag (`'scope1' | 'scope2' | 'scope3'`). -/
inductive Scope where
  | scope1
  | scope2
  | scope3
deriving DecidableEq, Repr

/-- Confidence level tag (`'high' | 'medium' | 'low'`). -/
inductive ConfidenceLevel where
  | high
  | medium
  | low
deriving DecidableEq, Repr

/-- Matching method tag of a `MatchResult`. -/
inductive MatchMethod where
  | vat_lookup
  | account_mapping
  | supplier_mapping
  | manual
  | none
deriving DecidableEq, Repr

/-- The `metadata` JSON record attached to emission factors.  The matcher
only ever reads/writes the keys `tier`, `num_products_averaged`,
`num_factors_averaged` and `fallback_reason`, so the record is modelled by
those four optional fields (spreading an absent record gives all-`none`). -/
structure Metadata where
  tier : Option Nat := Option.none
  num_products_averaged : Option Nat := Option.none
  num_factors_averaged : Option Nat := Option.none
  fallback_reason : Option String := Option.none
deriving DecidableEq, Repr

/-- `EmissionFactor` catalog entry (types.ts).  Timestamp fields
(`created_at`/`updated_at`), which the matcher never consults, are omitted. -/
structure EmissionFactor where
  id : String
  nace_code : Option String
  category : String
  subcategory : Option String
  exiobase_product_code : Option String
  exiobase_product_name : Option String
  country_code : Option String
  country_name : Option String
  emission_factor_kgco2e_per_eur : ℚ
  emission_factor_kgco2e_per_unit : Option ℚ := Option.none
  physical_unit : Option String := Option.none
  scope : Option Scope
  region : Option String := Option.none
  data_source : Option String := Option.none
  source_year : Option Nat := Option.none
  confidence_level : Option ConfidenceLevel := Option.none
  total_output_eur : Option ℚ := Option.none
  num_countries : Option Nat := Option.none
  metadata : Option Metadata := Option.none
  is_active : Option Bool := Option.none
deriving DecidableEq, Repr

/-- `Transaction` input record (types.ts); the `date` field, never read by
the matcher, is omitted. -/
structure Transaction where
  id : String
  supplier_name : String
  vat_number : Option String := Option.none
  account_code : Option String := Option.none
  amount : ℚ
  currency : Option String := Option.none
  description : Option String := Option.none
  supplier_country : Option String := Option.none
  category : Option String := Option.none
deriving DecidableEq, Repr

/-- `MatchResult` output record (types.ts). -/
structure MatchResult where
  emissionFactor : Option EmissionFactor
  naceCode : Option String
  countryCode : Option String
  productCode : Option String
  confidence : ℚ
  tier : Option Nat
  method : MatchMethod
  reasoning : String
  fallbackApplied : Bool
  emissions : Option ℚ := Option.none
deriving DecidableEq, Repr

/-- `NACEEmissionFactor` aggregated record (tier-4 table, types.ts);
timestamps omitted. -/
structure NACEEmissionFactor where
  id : String
  nace_code : String
  nace_description : Option String
  scope_1_factor : Option ℚ := Option.none
  scope_2_factor : Option ℚ := Option.none
  scope_3_factor : Option ℚ := Option.none
  source : Option String := Option.none
  source_year : Option Nat := Option.none
  confidence_level : Option ConfidenceLevel := Option.none
  total_output_eur : Option ℚ := Option.none
  num_countries : Option Nat := Option.none
deriving DecidableEq, Repr

/-- `SupplierNACEMapping` learning-system record (types.ts); fields not
consulted by the matcher beyond identification are kept optional. -/
structure SupplierNACEMapping where
  id : String
  supplier_name_normalized : String
  vat_number : Option String := Option.none
  country_code : Option String := Option.none
  nace_code : String
  confidence_score : ℚ := 0
  times_used : Nat := 0
  company_id : Option String := Option.none
deriving DecidableEq, Repr

/-- `VATCache` entry (types.ts); timestamp fields omitted. -/
structure VATCache where
  id : String
  vat_number : String
  country_code : Option String
  company_name : Option String := Option.none
  nace_code : Option String
  is_valid : Bool
deriving DecidableEq, Repr

/-- `EmissionCategoryMapping` account-code mapping record (types.ts);
timestamps omitted. -/
structure EmissionCategoryMapping where
  id : String
  company_id : String
  account_code : String
  account_name : Option String := Option.none
  nace_code : Option String
  emission_factor_id : Option String
  category : Option String := Option.none
  notes : Option String := Option.none
deriving DecidableEq, Repr

/-- Query filter record passed to the repository (types.ts
`EmissionFactorQuery`). -/
structure EmissionFactorQuery where
  nace_code : Option String := Option.none
  country_code : Option String := Option.none
  country_codes : Option (List String) := Option.none
  product_hint : Option String := Option.none
  exiobase_product_code : Option String := Option.none
  scope : Option Scope := Option.none
  is_active : Option Bool := Option.none
  confidence_level : Option ConfidenceLevel := Option.none
deriving DecidableEq, Repr

/-- The repository capability (`DatabaseAdapter`, types.ts).  Every
operation may fail, modelled by `Except ε`. -/
structure DatabaseAdapter (ε : Type) where
  findEmissionFactor : EmissionFactorQuery → Except ε (Option EmissionFactor)
  findEmissionFactors : EmissionFactorQuery → Except ε (List EmissionFactor)
  getEmissionFactorById : String → Except ε (Option EmissionFactor)
  findNACEEmissionFactor : String → Except ε (Option NACEEmissionFactor)
  getVATCache : String → Except ε (Option VATCache)
  getAccountMapping : String → String → Except ε (Option EmissionCategoryMapping)
  getSupplierMapping : String → Except ε (Option SupplierNACEMapping)
  incrementSupplierUsage : String → Except ε Unit

/-- `confidenceLevels` block of `MatcherConfig`. -/
structure ConfidenceLevels where
  tier1 : ℚ
  tier2 : ℚ
  tier3 : ℚ
  tier4 : ℚ
deriving DecidableEq, Repr

/-- `methodConfidence` block of `MatcherConfig`. -/
structure MethodConfidence where
  vat_lookup : ℚ
  account_mapping : ℚ
  supplier_mapping : ℚ
deriving DecidableEq, Repr

/-- `tierAdjustments` block of `MatcherConfig`. -/
structure TierAdjustments where
  tier2 : ℚ
  tier3 : ℚ
  tier4 : ℚ
deriving DecidableEq, Repr

/-- `MatcherConfig` (types.ts). -/
structure MatcherConfig where
  confidenceLevels : ConfidenceLevels
  methodConfidence : MethodConfidence
  tierAdjustments : TierAdjustments
  enableLearning : Bool
  cacheVAT : Bool
  cacheTTL : Nat
deriving DecidableEq, Repr

-- ===========================================================================
-- Constants (matcher.ts lines 23-63)
-- ===========================================================================

/-- `DEFAULT_CONFIG` (matcher.ts lines 23-43). -/
def DEFAULT_CONFIG : MatcherConfig :=
  { confidenceLevels := { tier1 := 95/100, tier2 := 85/100, tier3 := 75/100, tier4 := 65/100 }
  , methodConfidence := { vat_lookup := 95/100, account_mapping := 85/100, supplier_mapping := 75/100 }
  , tierAdjustments := { tier2 := -10/100, tier3 := -20/100, tier4 := -30/100 }
  , enableLearning := true
  , cacheVAT := true
  , cacheTTL := 24 * 60 * 60 * 1000 }

/-- `VAT_COUNTRY_MAP` (matcher.ts lines 46-56): an association list from
VAT prefix to country code (each entry maps a code to itself). -/
def VAT_COUNTRY_MAP : List (String × String) :=
  [ ("SE", "SE"), ("NO", "NO"), ("DK", "DK"), ("FI", "FI"), ("IS", "IS")
  , ("AT", "AT"), ("BE", "BE"), ("BG", "BG"), ("HR", "HR"), ("CY", "CY")
  , ("CZ", "CZ"), ("DE", "DE"), ("EE", "EE"), ("GR", "GR"), ("ES", "ES")
  , ("FR", "FR"), ("HU", "HU"), ("IE", "IE"), ("IT", "IT"), ("LV", "LV")
  , ("LT", "LT"), ("LU", "LU"), ("MT", "MT"), ("NL", "NL"), ("PL", "PL")
  , ("PT", "PT"), ("RO", "RO"), ("SK", "SK"), ("SI", "SI"), ("GB", "GB")
  , ("CH", "CH"), ("US", "US"), ("CA", "CA"), ("AU", "AU"), ("JP", "JP")
  , ("CN", "CN"), ("IN", "IN"), ("BR", "BR"), ("MX", "MX"), ("ZA", "ZA")
  , ("KR", "KR"), ("TW", "TW"), ("ID", "ID"), ("TR", "TR"), ("RU", "RU") ]

/-- `EU_COUNTRIES` (matcher.ts lines 59-63). -/
def EU_COUNTRIES : List String :=
  [ "AT", "BE", "BG", "HR", "CY", "CZ", "DK", "EE", "FI", "FR"
  , "DE", "GR", "HU", "IE", "IT", "LV", "LT", "LU", "MT", "NL"
  , "PL", "PT", "RO", "SK", "SI", "ES", "SE" ]

-- ===========================================================================
-- JavaScript truthiness helpers
-- ===========================================================================

/-- JavaScript truthiness of an optional string: `undefined`/`null` and the
empty string are falsy. -/
def jsTruthy : Option String → Bool
  | Option.none => false
  | Option.some s => s != ""

/-- JavaScript `a || b` on optional strings. -/
def jsOr (a b : Option String) : Option String :=
  if jsTruthy a then a else b

/-- JavaScript `a || null` in a result position: an empty string collapses
to `null`. -/
def jsOrNull (a : Option String) : Option String :=
  if jsTruthy a then a else Option.none

/-- JavaScript `a || "lit"` where `a` is an optional string. -/
def jsOrStr (a : Option String) (b : String) : String :=
  match a with
  | Option.none => b
  | Option.some s => if s = "" then b else s

/-- Rendering of an optional string inside a template literal: JavaScript
prints `undefined` for an absent value. -/
def showOptStr : Option String → String
  | Option.none => "undefined"
  | Option.some s => s

-- ===========================================================================
-- Utility functions (matcher.ts lines 69-116)
-- ===========================================================================

/-- `s.toLowerCase()` over the character list (kernel-computable spelling of
`String.toLower`). -/
def lowerString (s : String) : String := String.mk (s.data.map Char.toLower)

/-- `s.toUpperCase()` over the character list. -/
def upperString (s : String) : String := String.mk (s.data.map Char.toUpper)

/-- `s.trim()` over the character list. -/
def trimString (s : String) : String :=
  String.mk (((s.data.dropWhile Char.isWhitespace).reverse.dropWhile Char.isWhitespace).reverse)

/-- Does list `sub` occur at the head of `l`? -/
def charsHavePre : List Char → List Char → Bool
  | [], _ => true
  | _ :: _, [] => false
  | a :: as, b :: bs => a = b && charsHavePre as bs

/-- Does list `sub` occur contiguously anywhere inside `l`? -/
def charsHaveSub (sub : List Char) : List Char → Bool
  | [] => charsHavePre sub []
  | b :: bs => charsHavePre sub (b :: bs) || charsHaveSub sub bs

/-- JavaScript `s.includes(sub)`. -/
def includesStr (s sub : String) : Bool :=
  charsHaveSub sub.data s.data

/-- `getCountryFromVAT` (matcher.ts lines 72-76). -/
def getCountryFromVAT (vatNumber : String) : Option String :=
  if vatNumber.length < 2 then Option.none
  else
    let pfx := upperString (String.mk (vatNumber.data.take 2))
    match VAT_COUNTRY_MAP.lookup pfx with
    | Option.some c => Option.some c
    | Option.none => Option.none

/-- The legal-entity suffix tokens of the `normalizeSupplierName` regex
(matcher.ts line 84). -/
def companySuffixTokens : List String :=
  ["ab", "oy", "as", "gmbh", "ltd", "llc", "inc", "corp", "sa", "srl", "bv", "ag", "nv", "bhd", "sdn", "pte"]

/-- Does the character list match the regex tail `\s*(token)\s*$`?  (The
tokens contain no whitespace, so the whitespace/token boundary is
deterministic.) -/
def suffixTailMatches (l : List Char) : Bool :=
  let l1 := l.dropWhile Char.isWhitespace
  companySuffixTokens.any fun t =>
    charsHavePre t.data l1 && (l1.drop t.length).all Char.isWhitespace

/-- `normalizeSupplierName` (matcher.ts lines 81-86): lowercase, replace the
leftmost occurrence of `\s*(ab|oy|...)\s*$` by the empty string, trim. -/
def normalizeSupplierName (name : String) : String :=
  let s := lowerString name
  let cs := s.data
  match (List.range (cs.length + 1)).find? (fun i => suffixTailMatches (cs.drop i)) with
  | Option.some i => trimString (String.mk (cs.take i))
  | Option.none => trimString s

/-- `extractProductHints` (matcher.ts lines 91-116). -/
def extractProductHints (description : Option String) : List String :=
  match description with
  | Option.none => []
  | Option.some d =>
    if d = "" then []
    else
      let text := lowerString d
      let hints : List String := []
      let hints := if includesStr text "wind" then hints ++ ["wind"] else hints
      let hints := if includesStr text "solar" then hints ++ ["solar"] else hints
      let hints := if includesStr text "hydro" then hints ++ ["hydro"] else hints
      let hints := if includesStr text "nuclear" then hints ++ ["nuclear"] else hints
      let hints := if includesStr text "coal" then hints ++ ["coal"] else hints
      let hints := if includesStr text "gas" then hints ++ ["gas"] else hints
      let hints := if includesStr text "electricity" then hints ++ ["electricity"] else hints
      let hints := if includesStr text "flight" || includesStr text "airline" then hints ++ ["air transport"] else hints
      let hints := if includesStr text "train" || includesStr text "railway" then hints ++ ["rail"] else hints
      let hints := if includesStr text "truck" || includesStr text "freight" then hints ++ ["freight"] else hints
      let hints := if includesStr text "biofuel" || includesStr text "renewable" then hints ++ ["renewable"] else hints
      let hints := if includesStr text "fossil" then hints ++ ["fossil"] else hints
      hints

-- ===========================================================================
-- Tier functions (matcher.ts lines 122-262)
-- ===========================================================================

/-- The tier-1 query with a product hint (matcher.ts lines 134-140). -/
def tier1HintQuery (naceCode countryCode hint : String) : EmissionFactorQuery :=
  { nace_code := Option.some naceCode
  , country_code := Option.some countryCode
  , product_hint := Option.some hint
  , scope := Option.some Scope.scope3
  , is_active := Option.some true }

/-- The hint-less tier-1 query (matcher.ts lines 146-151). -/
def tier1BaseQuery (naceCode countryCode : String) : EmissionFactorQuery :=
  { nace_code := Option.some naceCode
  , country_code := Option.some countryCode
  , scope := Option.some Scope.scope3
  , is_active := Option.some true }

/-- The tier-2 query (matcher.ts lines 162-167). -/
def tier2Query (naceCode countryCode : String) : EmissionFactorQuery :=
  { nace_code := Option.some naceCode
  , country_code := Option.some countryCode
  , scope := Option.some Scope.scope3
  , is_active := Option.some true }

/-- The tier-3 query (matcher.ts lines 200-205). -/
def tier3Query (naceCode : String) : EmissionFactorQuery :=
  { nace_code := Option.some naceCode
  , country_codes := Option.some EU_COUNTRIES
  , scope := Option.some Scope.scope3
  , is_active := Option.some true }

/-- The per-hint loop of tier 1 (matcher.ts lines 133-143): first hit is
returned, a `null` falls through to the next hint. -/
def tier1Loop (naceCode countryCode : String) (db : DatabaseAdapter ε) :
    List String → Except ε (Option EmissionFactor)
  | [] => Except.ok Option.none
  | hint :: rest =>
    match db.findEmissionFactor (tier1HintQuery naceCode countryCode hint) with
    | Except.error e => Except.error e
    | Except.ok (Option.some factor) => Except.ok (Option.some factor)
    | Except.ok Option.none => tier1Loop naceCode countryCode db rest

/-- `getEmissionFactorTier1` (matcher.ts lines 125-152). -/
def getEmissionFactorTier1 (naceCode countryCode : String) (db : DatabaseAdapter ε)
    (productHints : List String) : Except ε (Option EmissionFactor) :=
  match (if productHints.isEmpty then Except.ok Option.none
         else tier1Loop naceCode countryCode db productHints) with
  | Except.error e => Except.error e
  | Except.ok (Option.some factor) => Except.ok (Option.some factor)
  | Except.ok Option.none => db.findEmissionFactor (tier1BaseQuery naceCode countryCode)

/-- `getEmissionFactorTier2` (matcher.ts lines 157-191): country average. -/
def getEmissionFactorTier2 (naceCode countryCode : String) (db : DatabaseAdapter ε) :
    Except ε (Option EmissionFactor) :=
  match db.findEmissionFactors (tier2Query naceCode countryCode) with
  | Except.error e => Except.error e
  | Except.ok [] => Except.ok Option.none
  | Except.ok (f0 :: rest) =>
    let factors := f0 :: rest
    let avgEmissionFactor :=
      factors.foldl (fun sum f => sum + f.emission_factor_kgco2e_per_eur) 0 / (factors.length : ℚ)
    Except.ok (Option.some
      { f0 with
        emission_factor_kgco2e_per_eur := avgEmissionFactor
      , exiobase_product_code := Option.none
      , exiobase_product_name := Option.some ("Country Average (" ++ toString factors.length ++ " products)")
      , confidence_level := Option.some ConfidenceLevel.medium
      , metadata := Option.some
          { f0.metadata.getD {} with
            tier := Option.some 2
          , num_products_averaged := Option.some factors.length
          , fallback_reason := Option.some "No exact product match, using country average" } })

/-- `getEmissionFactorTier3` (matcher.ts lines 196-231): EU average. -/
def getEmissionFactorTier3 (naceCode : String) (db : DatabaseAdapter ε) :
    Except ε (Option EmissionFactor) :=
  match db.findEmissionFactors (tier3Query naceCode) with
  | Except.error e => Except.error e
  | Except.ok [] => Except.ok Option.none
  | Except.ok (f0 :: rest) =>
    let factors := f0 :: rest
    let avgEmissionFactor :=
      factors.foldl (fun sum f => sum + f.emission_factor_kgco2e_per_eur) 0 / (factors.length : ℚ)
    Except.ok (Option.some
      { f0 with
        emission_factor_kgco2e_per_eur := avgEmissionFactor
      , country_code := Option.some "EU"
      , country_name := Option.some "European Union (Average)"
      , exiobase_product_code := Option.none
      , exiobase_product_name := Option.some ("EU Average (" ++ toString factors.length ++ " factors)")
      , confidence_level := Option.some ConfidenceLevel.medium
      , metadata := Option.some
          { f0.metadata.getD {} with
            tier := Option.some 3
          , num_factors_averaged := Option.some factors.length
          , fallback_reason := Option.some "No country-specific data, using EU average" } })

/-- `getEmissionFactorTier4` (matcher.ts lines 236-262): global sector
average built from the aggregated NACE-level record; a missing
`scope_3_factor` collapses to `0` through JavaScript `|| 0`. -/
def getEmissionFactorTier4 (naceCode : String) (db : DatabaseAdapter ε) :
    Except ε (Option EmissionFactor) :=
  match db.findNACEEmissionFactor naceCode with
  | Except.error e => Except.error e
  | Except.ok Option.none => Except.ok Option.none
  | Except.ok (Option.some naceFactors) =>
    Except.ok (Option.some
      { id := naceFactors.id
      , nace_code := Option.some naceFactors.nace_code
      , category := jsOrStr naceFactors.nace_description ("NACE " ++ naceCode)
      , subcategory := Option.none
      , exiobase_product_code := Option.none
      , exiobase_product_name := Option.some "Sector Average"
      , country_code := Option.some "XX"
      , country_name := Option.some "Global Average"
      , emission_factor_kgco2e_per_eur := naceFactors.scope_3_factor.getD 0
      , scope := Option.some Scope.scope3
      , confidence_level := Option.some ConfidenceLevel.low
      , data_source := Option.some (jsOrStr naceFactors.source "EXIOBASE_AGGREGATED")
      , metadata := Option.some
          { tier := Option.some 4
          , fallback_reason := Option.some "No detailed data available, using global sector average" } })

-- ===========================================================================
-- Tier fallback resolver (matcher.ts lines 267-322)
-- ===========================================================================

/-- Result triple of `getEmissionFactorWithFallback`. -/
structure FallbackResult where
  factor : Option EmissionFactor
  tier : Option Nat
  reasoning : String
deriving DecidableEq, Repr

/-- Tiers 3 and 4 of the fallback chain (matcher.ts lines 297-321), shared
by the known-country and unknown-country paths. -/
def fallbackTier34 (naceCode : String) (db : DatabaseAdapter ε) : Except ε FallbackResult :=
  match getEmissionFactorTier3 naceCode db with
  | Except.error e => Except.error e
  | Except.ok (Option.some tier3) =>
    Except.ok { factor := Option.some tier3, tier := Option.some 3
              , reasoning := "EU average for NACE " ++ naceCode ++ " (country-averaged across EU)" }
  | Except.ok Option.none =>
    match getEmissionFactorTier4 naceCode db with
    | Except.error e => Except.error e
    | Except.ok (Option.some tier4) =>
      Except.ok { factor := Option.some tier4, tier := Option.some 4
                , reasoning := "Global sector average for NACE " ++ naceCode }
    | Except.ok Option.none =>
      Except.ok { factor := Option.none, tier := Option.none
                , reasoning := "No emission factor found for NACE " ++ naceCode }

/-- `getEmissionFactorWithFallback` (matcher.ts lines 267-322).  The
`if (countryCode)` guard is JavaScript truthiness, so an empty-string
country skips tiers 1 and 2. -/
def getEmissionFactorWithFallback (naceCode : String) (db : DatabaseAdapter ε)
    (config : MatcherConfig) (countryCode : Option String) (productHints : List String) :
    Except ε FallbackResult :=
  match countryCode with
  | Option.none => fallbackTier34 naceCode db
  | Option.some cc =>
    if cc = "" then fallbackTier34 naceCode db
    else
      match getEmissionFactorTier1 naceCode cc db productHints with
      | Except.error e => Except.error e
      | Except.ok (Option.some tier1) =>
        Except.ok { factor := Option.some tier1, tier := Option.some 1
                  , reasoning := "Exact match: " ++ cc ++ " + NACE " ++ naceCode ++
                      (match productHints with
                       | [] => ""
                       | hint :: _ => " + " ++ hint) }
      | Except.ok Option.none =>
        match getEmissionFactorTier2 naceCode cc db with
        | Except.error e => Except.error e
        | Except.ok (Option.some tier2) =>
          Except.ok { factor := Option.some tier2, tier := Option.some 2
                    , reasoning := "Country average for " ++ cc ++ " + NACE " ++ naceCode ++ " (product-averaged)" }
        | Except.ok Option.none => fallbackTier34 naceCode db

-- ===========================================================================
-- Matching strategies (matcher.ts lines 331-396)
-- ===========================================================================

/-- Result pair of `matchByVAT`. -/
structure VATMatch where
  naceCode : Option String
  countryCode : Option String
deriving DecidableEq, Repr

/-- `matchByVAT` (matcher.ts lines 331-352). -/
def matchByVAT (transaction : Transaction) (db : DatabaseAdapter ε) (config : MatcherConfig) :
    Except ε VATMatch :=
  match transaction.vat_number with
  | Option.none => Except.ok { naceCode := Option.none, countryCode := Option.none }
  | Option.some vat =>
    if vat = "" then Except.ok { naceCode := Option.none, countryCode := Option.none }
    else
      let countryCode := getCountryFromVAT vat
      if config.cacheVAT then
        match db.getVATCache vat with
        | Except.error e => Except.error e
        | Except.ok (Option.some cached) =>
          if cached.is_valid then
            Except.ok { naceCode := cached.nace_code, countryCode := jsOr countryCode cached.country_code }
          else
            Except.ok { naceCode := Option.none, countryCode := countryCode }
        | Except.ok Option.none =>
          Except.ok { naceCode := Option.none, countryCode := countryCode }
      else
        Except.ok { naceCode := Option.none, countryCode := countryCode }

/-- Result pair of `matchByAccountCode`. -/
structure AccountMatch where
  naceCode : Option String
  emissionFactorId : Option String
deriving DecidableEq, Repr

/-- `matchByAccountCode` (matcher.ts lines 357-373). -/
def matchByAccountCode (transaction : Transaction) (companyId : Option String)
    (db : DatabaseAdapter ε) : Except ε AccountMatch :=
  if !jsTruthy transaction.account_code || !jsTruthy companyId then
    Except.ok { naceCode := Option.none, emissionFactorId := Option.none }
  else
    match db.getAccountMapping (showOptStr companyId) (showOptStr transaction.account_code) with
    | Except.error e => Except.error e
    | Except.ok Option.none => Except.ok { naceCode := Option.none, emissionFactorId := Option.none }
    | Except.ok (Option.some mapping) =>
      Except.ok { naceCode := mapping.nace_code, emissionFactorId := mapping.emission_factor_id }

/-- `matchBySupplierName` (matcher.ts lines 378-396).  The usage-counter
increment is fired when learning is enabled and the mapping id is truthy. -/
def matchBySupplierName (transaction : Transaction) (db : DatabaseAdapter ε)
    (config : MatcherConfig) : Except ε (Option String) :=
  if transaction.supplier_name = "" then Except.ok Option.none
  else
    let normalized := normalizeSupplierName transaction.supplier_name
    match db.getSupplierMapping normalized with
    | Except.error e => Except.error e
    | Except.ok Option.none => Except.ok Option.none
    | Except.ok (Option.some mapping) =>
      if config.enableLearning && mapping.id != "" then
        match db.incrementSupplierUsage mapping.id with
        | Except.error e => Except.error e
        | Except.ok _ => Except.ok (Option.some mapping.nace_code)
      else
        Except.ok (Option.some mapping.nace_code)

-- ===========================================================================
-- Main matching function (matcher.ts lines 411-546)
-- ===========================================================================

/-- The terminal no-match result (matcher.ts lines 535-545). -/
def noMatchResult : MatchResult :=
  { emissionFactor := Option.none
  , naceCode := Option.none
  , countryCode := Option.none
  , productCode := Option.none
  , confidence := 0
  , tier := Option.none
  , method := MatchMethod.none
  , reasoning := "No automatic match found. Manual assignment required."
  , fallbackApplied := false }

/-- The tier adjustment expression
`tier === 1 ? 0 : config.tierAdjustments[`tier${tier}`] || 0`
(matcher.ts lines 436, 486, 517). -/
def tierAdjustmentOf (config : MatcherConfig) : Option Nat → ℚ
  | Option.some 1 => 0
  | Option.some 2 => config.tierAdjustments.tier2
  | Option.some 3 => config.tierAdjustments.tier3
  | Option.some 4 => config.tierAdjustments.tier4
  | _ => 0

/-- The country code visible after strategy 1 updated it:
`if (!countryCode && vatCountry) countryCode = vatCountry`
(matcher.ts line 423), starting from `transaction.supplier_country`. -/
def effectiveCountry (transaction : Transaction) (vm : VATMatch) : Option String :=
  if !jsTruthy transaction.supplier_country && jsTruthy vm.countryCode then vm.countryCode
  else transaction.supplier_country

/-- Strategy 3 and the terminal no-match fall-through
(matcher.ts lines 504-546). -/
def strategy3Match (transaction : Transaction) (db : DatabaseAdapter ε)
    (config : MatcherConfig) (countryCode : Option String) (productHints : List String) :
    Except ε MatchResult :=
  match matchBySupplierName transaction db config with
  | Except.error e => Except.error e
  | Except.ok Option.none => Except.ok noMatchResult
  | Except.ok (Option.some naceCode) =>
    if naceCode = "" then Except.ok noMatchResult
    else
      match getEmissionFactorWithFallback naceCode db config countryCode productHints with
      | Except.error e => Except.error e
      | Except.ok fb =>
        match fb.factor with
        | Option.none => Except.ok noMatchResult
        | Option.some factor =>
          let baseConfidence := config.methodConfidence.supplier_mapping
          let tierAdjustment := tierAdjustmentOf config fb.tier
          Except.ok
            { emissionFactor := Option.some factor
            , naceCode := Option.some naceCode
            , countryCode := jsOrNull countryCode
            , productCode := factor.exiobase_product_code
            , confidence := max 0 (min 1 (baseConfidence + tierAdjustment))
            , tier := fb.tier
            , method := MatchMethod.supplier_mapping
            , reasoning := "Supplier name → " ++ fb.reasoning
            , fallbackApplied := fb.tier != Option.some 1 }

/-- The `if (naceCode) { ... }` part of strategy 2 (matcher.ts lines
475-501), falling through to strategy 3. -/
def strategy2Nace (transaction : Transaction) (db : DatabaseAdapter ε)
    (config : MatcherConfig) (countryCode : Option String) (productHints : List String)
    (naceOpt : Option String) : Except ε MatchResult :=
  match naceOpt with
  | Option.none => strategy3Match transaction db config countryCode productHints
  | Option.some naceCode =>
    if naceCode = "" then strategy3Match transaction db config countryCode productHints
    else
      match getEmissionFactorWithFallback naceCode db config countryCode productHints with
      | Except.error e => Except.error e
      | Except.ok fb =>
        match fb.factor with
        | Option.none => strategy3Match transaction db config countryCode productHints
        | Option.some factor =>
          let baseConfidence := config.methodConfidence.account_mapping
          let tierAdjustment := tierAdjustmentOf config fb.tier
          Except.ok
            { emissionFactor := Option.some factor
            , naceCode := Option.some naceCode
            , countryCode := jsOrNull countryCode
            , productCode := factor.exiobase_product_code
            , confidence := max 0 (min 1 (baseConfidence + tierAdjustment))
            , tier := fb.tier
            , method := MatchMethod.account_mapping
            , reasoning := "Account code " ++ showOptStr transaction.account_code ++ " → " ++ fb.reasoning
            , fallbackApplied := fb.tier != Option.some 1 }

/-- Strategy 2 (matcher.ts lines 454-502): pre-mapped factor id first, the
mapped NACE code next, then strategy 3. -/
def strategy2Match (transaction : Transaction) (db : DatabaseAdapter ε)
    (companyId : Option String) (config : MatcherConfig) (countryCode : Option String)
    (productHints : List String) : Except ε MatchResult :=
  if jsTruthy transaction.account_code && jsTruthy companyId then
    match matchByAccountCode transaction companyId db with
    | Except.error e => Except.error e
    | Except.ok am =>
      match am.emissionFactorId with
      | Option.some efId =>
        if efId = "" then
          strategy2Nace transaction db config countryCode productHints am.naceCode
        else
          match db.getEmissionFactorById efId with
          | Except.error e => Except.error e
          | Except.ok (Option.some factor) =>
            Except.ok
              { emissionFactor := Option.some factor
              , naceCode := am.naceCode
              , countryCode := factor.country_code
              , productCode := factor.exiobase_product_code
              , confidence := config.methodConfidence.account_mapping
              , tier := Option.some 1
              , method := MatchMethod.account_mapping
              , reasoning := "Account code " ++ showOptStr transaction.account_code ++ " → Pre-mapped emission factor"
              , fallbackApplied := false }
          | Except.ok Option.none =>
            strategy2Nace transaction db config countryCode productHints am.naceCode
      | Option.none =>
        strategy2Nace transaction db config countryCode productHints am.naceCode
  else
    strategy3Match transaction db config countryCode productHints

/-- `matchTransaction` (matcher.ts lines 411-546). -/
def matchTransaction (transaction : Transaction) (db : DatabaseAdapter ε)
    (companyId : Option String) (config : MatcherConfig) : Except ε MatchResult :=
  let productHints := extractProductHints transaction.description
  let countryCode := transaction.supplier_country
  if jsTruthy transaction.vat_number then
    match matchByVAT transaction db config with
    | Except.error e => Except.error e
    | Except.ok vm =>
      match vm.naceCode with
      | Option.none =>
        strategy2Match transaction db companyId config (effectiveCountry transaction vm) productHints
      | Option.some naceCode =>
        if naceCode = "" then
          strategy2Match transaction db companyId config (effectiveCountry transaction vm) productHints
        else
          match getEmissionFactorWithFallback naceCode db config (effectiveCountry transaction vm) productHints with
          | Except.error e => Except.error e
          | Except.ok fb =>
            match fb.factor with
            | Option.none =>
              strategy2Match transaction db companyId config (effectiveCountry transaction vm) productHints
            | Option.some factor =>
              let baseConfidence := config.methodConfidence.vat_lookup
              let tierAdjustment := tierAdjustmentOf config fb.tier
              Except.ok
                { emissionFactor := Option.some factor
                , naceCode := Option.some naceCode
                , countryCode := jsOrNull (effectiveCountry transaction vm)
                , productCode := factor.exiobase_product_code
                , confidence := max 0 (min 1 (baseConfidence + tierAdjustment))
                , tier := fb.tier
                , method := MatchMethod.vat_lookup
                , reasoning := "VAT lookup → " ++ fb.reasoning
                , fallbackApplied := fb.tier != Option.some 1 }
  else
    strategy2Match transaction db companyId config countryCode productHints

-- ===========================================================================
-- Helper functions (matcher.ts lines 555-563)
-- ===========================================================================

/-- `calculateEmissions` (matcher.ts lines 555-563). -/
def calculateEmissions (amount : ℚ) (emissionFactorKgCO2ePerEur : ℚ)
    (currency : String) (exchangeRate : ℚ) : ℚ :=
  let amountInEur := if currency = "EUR" then amount else amount * exchangeRate
  amountInEur * emissionFactorKgCO2ePerEur

/-- The base confidence the matcher reads for a method
(`config.methodConfidence.<method>`); strategies other than the three
lookup methods never construct a confidence from the table. -/
def methodBaseConfidence (config : MatcherConfig) : MatchMethod → ℚ
  | MatchMethod.vat_lookup => config.methodConfidence.vat_lookup
  | MatchMethod.account_mapping => config.methodConfidence.account_mapping
  | MatchMethod.supplier_mapping => config.methodConfidence.supplier_mapping
  | _ => 0

deriving instance DecidableEq for Except

-- ===========================================================================
-- Lemmas about the tier functions
-- ===========================================================================

/-- A miss of the tier-1 hint loop means every per-hint query returned
`null`. -/
theorem tier1Loop_none {ε} (naceCode countryCode : String) (db : DatabaseAdapter ε) :
    ∀ hints : List String, tier1Loop naceCode countryCode db hints = Except.ok Option.none →
      ∀ hint ∈ hints, db.findEmissionFactor (tier1HintQuery naceCode countryCode hint) = Except.ok Option.none := by
  intro hints
  induction hints with
  | nil => intro _ hint hmem; cases hmem
  | cons hd tl ih =>
    intro h hint hmem
    unfold tier1Loop at h
    cases hq : db.findEmissionFactor (tier1HintQuery naceCode countryCode hd) with
    | error e => rw [hq] at h; exact absurd h (by simp)
    | ok o =>
      rw [hq] at h
      cases o with
      | some factor => simp at h
      | none =>
        simp only at h
        rcases List.mem_cons.mp hmem with hv | hv
        · subst hv; exact hq
        · exact ih h hint hv

/-- A tier-1 miss means the per-hint queries and the hint-less query all
returned `null`. -/
theorem tier1_none_queries {ε} (naceCode countryCode : String) (db : DatabaseAdapter ε)
    (productHints : List String)
    (h : getEmissionFactorTier1 naceCode countryCode db productHints = Except.ok Option.none) :
    (∀ hint ∈ productHints, db.findEmissionFactor (tier1HintQuery naceCode countryCode hint) = Except.ok Option.none) ∧
      db.findEmissionFactor (tier1BaseQuery naceCode countryCode) = Except.ok Option.none := by
  unfold getEmissionFactorTier1 at h
  by_cases hemp : productHints.isEmpty
  · rw [if_pos hemp] at h
    simp only at h
    constructor
    · intro hint hmem
      rcases productHints with _ | ⟨a, l⟩
      · cases hmem
      · simp [List.isEmpty] at hemp
    · exact h
  · rw [if_neg hemp] at h
    cases hl : tier1Loop naceCode countryCode db productHints with
    | error e => rw [hl] at h; exact absurd h (by simp)
    | ok o =>
      rw [hl] at h
      cases o with
      | some factor => simp at h
      | none =>
        simp only at h
        exact ⟨tier1Loop_none naceCode countryCode db productHints hl, h⟩

/-- Tier 2 misses exactly when its repository query returns the empty set. -/
theorem tier2_none_iff {ε} (naceCode countryCode : String) (db : DatabaseAdapter ε) :
    getEmissionFactorTier2 naceCode countryCode db = Except.ok Option.none ↔
      db.findEmissionFactors (tier2Query naceCode countryCode) = Except.ok [] := by
  unfold getEmissionFactorTier2
  cases hq : db.findEmissionFactors (tier2Query naceCode countryCode) with
  | error e => simp
  | ok factors => cases factors <;> simp

/-- Tier 3 misses exactly when its repository query returns the empty set. -/
theorem tier3_none_iff {ε} (naceCode : String) (db : DatabaseAdapter ε) :
    getEmissionFactorTier3 naceCode db = Except.ok Option.none ↔
      db.findEmissionFactors (tier3Query naceCode) = Except.ok [] := by
  unfold getEmissionFactorTier3
  cases hq : db.findEmissionFactors (tier3Query naceCode) with
  | error e => simp
  | ok factors => cases factors <;> simp

/-- Tier 4 misses exactly when the aggregated NACE-level record is absent. -/
theorem tier4_none_iff {ε} (naceCode : String) (db : DatabaseAdapter ε) :
    getEmissionFactorTier4 naceCode db = Except.ok Option.none ↔
      db.findNACEEmissionFactor naceCode = Except.ok Option.none := by
  unfold getEmissionFactorTier4
  cases hq : db.findNACEEmissionFactor naceCode with
  | error e => simp
  | ok o => cases o <;> simp

-- ===========================================================================
-- Lemmas about the fallback resolver
-- ===========================================================================

/-- Case analysis of the shared tier-3/tier-4 tail of the fallback chain. -/
theorem fallbackTier34_cases {ε} {naceCode : String} {db : DatabaseAdapter ε} {r : FallbackResult}
    (h : fallbackTier34 naceCode db = Except.ok r) :
    (∃ f, getEmissionFactorTier3 naceCode db = Except.ok (Option.some f) ∧
      r.factor = Option.some f ∧ r.tier = Option.some 3) ∨
    (getEmissionFactorTier3 naceCode db = Except.ok Option.none ∧
      ∃ f, getEmissionFactorTier4 naceCode db = Except.ok (Option.some f) ∧
        r.factor = Option.some f ∧ r.tier = Option.some 4) ∨
    (getEmissionFactorTier3 naceCode db = Except.ok Option.none ∧
      getEmissionFactorTier4 naceCode db = Except.ok Option.none ∧
      r.factor = Option.none ∧ r.tier = Option.none) := by
  unfold fallbackTier34 at h
  cases h3 : getEmissionFactorTier3 naceCode db with
  | error e => rw [h3] at h; exact absurd h (by simp)
  | ok o3 =>
    rw [h3] at h
    cases o3 with
    | some f =>
      simp only at h
      injection h with h
      subst h
      exact Or.inl ⟨f, rfl, rfl, rfl⟩
    | none =>
      simp only at h
      cases h4 : getEmissionFactorTier4 naceCode db with
      | error e => rw [h4] at h; exact absurd h (by simp)
      | ok o4 =>
        rw [h4] at h
        cases o4 with
        | some f =>
          simp only at h
          injection h with h
          subst h
          exact Or.inr (Or.inl ⟨rfl, f, rfl, rfl, rfl⟩)
        | none =>
          simp only at h
          injection h with h
          subst h
          exact Or.inr (Or.inr ⟨rfl, rfl, rfl, rfl⟩)

/-- Full case analysis of `getEmissionFactorWithFallback`: the chain is
attempted strictly in tier order with short-circuit on first success. -/
theorem fallback_cases {ε} {naceCode : String} {db : DatabaseAdapter ε} {config : MatcherConfig}
    {countryCode : Option String} {productHints : List String} {r : FallbackResult}
    (h : getEmissionFactorWithFallback naceCode db config countryCode productHints = Except.ok r) :
    (jsTruthy countryCode = false ∧ fallbackTier34 naceCode db = Except.ok r) ∨
    (∃ cc, countryCode = Option.some cc ∧ cc ≠ "" ∧
      ((∃ f, getEmissionFactorTier1 naceCode cc db productHints = Except.ok (Option.some f) ∧
         r.factor = Option.some f ∧ r.tier = Option.some 1) ∨
       (getEmissionFactorTier1 naceCode cc db productHints = Except.ok Option.none ∧
         ∃ f, getEmissionFactorTier2 naceCode cc db = Except.ok (Option.some f) ∧
           r.factor = Option.some f ∧ r.tier = Option.some 2) ∨
       (getEmissionFactorTier1 naceCode cc db productHints = Except.ok Option.none ∧
         getEmissionFactorTier2 naceCode cc db = Except.ok Option.none ∧
         fallbackTier34 naceCode db = Except.ok r))) := by
  unfold getEmissionFactorWithFallback at h
  cases hcc : countryCode with
  | none => rw [hcc] at h; exact Or.inl ⟨rfl, h⟩
  | some cc =>
    rw [hcc] at h
    simp only at h
    by_cases hemp : cc = ""
    · rw [if_pos hemp] at h
      subst hemp
      exact Or.inl ⟨rfl, h⟩
    · rw [if_neg hemp] at h
      refine Or.inr ⟨cc, rfl, hemp, ?_⟩
      cases h1 : getEmissionFactorTier1 naceCode cc db productHints with
      | error e => rw [h1] at h; exact absurd h (by simp)
      | ok o1 =>
        rw [h1] at h
        cases o1 with
        | some f =>
          simp only at h
          injection h with h
          subst h
          exact Or.inl ⟨f, rfl, rfl, rfl⟩
        | none =>
          simp only at h
          cases h2 : getEmissionFactorTier2 naceCode cc db with
          | error e => rw [h2] at h; exact absurd h (by simp)
          | ok o2 =>
            rw [h2] at h
            cases o2 with
            | some f =>
              simp only at h
              injection h with h
              subst h
              exact Or.inr (Or.inl ⟨rfl, f, rfl, rfl, rfl⟩)
            | none =>
              simp only at h
              exact Or.inr (Or.inr ⟨rfl, rfl, h⟩)

/-- On success the fallback resolver pairs a present factor with a tier in
1..4, and an absent factor with an absent tier. -/
theorem fallback_shape {ε} {naceCode : String} {db : DatabaseAdapter ε} {config : MatcherConfig}
    {countryCode : Option String} {productHints : List String} {r : FallbackResult}
    (h : getEmissionFactorWithFallback naceCode db config countryCode productHints = Except.ok r) :
    (r.factor = Option.none ∧ r.tier = Option.none) ∨
    (∃ f k, r.factor = Option.some f ∧ r.tier = Option.some k ∧
      (k = 1 ∨ k = 2 ∨ k = 3 ∨ k = 4)) := by
  rcases fallback_cases h with ⟨_, h34⟩ | ⟨cc, _, _, hcase⟩
  · rcases fallbackTier34_cases h34 with ⟨f, _, hf, ht⟩ | ⟨_, f, _, hf, ht⟩ | ⟨_, _, hf, ht⟩
    · exact Or.inr ⟨f, 3, hf, ht, by simp⟩
    · exact Or.inr ⟨f, 4, hf, ht, by simp⟩
    · exact Or.inl ⟨hf, ht⟩
  · rcases hcase with ⟨f, _, hf, ht⟩ | ⟨_, f, _, hf, ht⟩ | ⟨_, _, h34⟩
    · exact Or.inr ⟨f, 1, hf, ht, by simp⟩
    · exact Or.inr ⟨f, 2, hf, ht, by simp⟩
    · rcases fallbackTier34_cases h34 with ⟨f, _, hf, ht⟩ | ⟨_, f, _, hf, ht⟩ | ⟨_, _, hf, ht⟩
      · exact Or.inr ⟨f, 3, hf, ht, by simp⟩
      · exact Or.inr ⟨f, 4, hf, ht, by simp⟩
      · exact Or.inl ⟨hf, ht⟩

/-- `jsTruthy` on a present string is exactly non-emptiness. -/
theorem jsTruthy_some_iff (s : String) : jsTruthy (Option.some s) = true ↔ s ≠ "" := by
  simp [jsTruthy]

/-- An all-empty repository adapter: every lookup misses and no operation
fails. -/
def dbEmptyW : DatabaseAdapter Unit :=
  { findEmissionFactor := fun _ => Except.ok Option.none
  , findEmissionFactors := fun _ => Except.ok []
  , getEmissionFactorById := fun _ => Except.ok Option.none
  , findNACEEmissionFactor := fun _ => Except.ok Option.none
  , getVATCache := fun _ => Except.ok Option.none
  , getAccountMapping := fun _ _ => Except.ok Option.none
  , getSupplierMapping := fun _ => Except.ok Option.none
  , incrementSupplierUsage := fun _ => Except.ok () }

/-- C1: tier fallback ordering of `getEmissionFactorWithFallback` is total
and deterministic.  Tier 1 short-circuits the chain; tier 2 is returned only
when the per-hint and hint-less tier-1 queries all returned `null`; tier 3
only when the tier-2 query returned the empty set or the country was
unknown; tier 4 only when the tier-3 query returned the empty set; a `null`
factor with `null` tier only when all four tiers missed. -/
theorem tier_fallback_order_spec {ε} {naceCode : String} {db : DatabaseAdapter ε}
    {config : MatcherConfig} {countryCode : Option String} {productHints : List String}
    {r : FallbackResult}
    (h : getEmissionFactorWithFallback naceCode db config countryCode productHints = Except.ok r) :
    (∀ cc f, countryCode = Option.some cc → cc ≠ "" →
      getEmissionFactorTier1 naceCode cc db productHints = Except.ok (Option.some f) →
      r.factor = Option.some f ∧ r.tier = Option.some 1) ∧
    (r.tier = Option.some 2 → ∃ cc, countryCode = Option.some cc ∧ cc ≠ "" ∧
      (∀ hint ∈ productHints,
        db.findEmissionFactor (tier1HintQuery naceCode cc hint) = Except.ok Option.none) ∧
      db.findEmissionFactor (tier1BaseQuery naceCode cc) = Except.ok Option.none) ∧
    (r.tier = Option.some 3 → jsTruthy countryCode = false ∨
      ∃ cc, countryCode = Option.some cc ∧
        db.findEmissionFactors (tier2Query naceCode cc) = Except.ok []) ∧
    (r.tier = Option.some 4 → db.findEmissionFactors (tier3Query naceCode) = Except.ok []) ∧
    (r.factor = Option.none → r.tier = Option.none ∧
      db.findEmissionFactors (tier3Query naceCode) = Except.ok [] ∧
      db.findNACEEmissionFactor naceCode = Except.ok Option.none ∧
      ∀ cc, countryCode = Option.some cc → cc ≠ "" →
        getEmissionFactorTier1 naceCode cc db productHints = Except.ok Option.none ∧
        db.findEmissionFactors (tier2Query naceCode cc) = Except.ok []) := by
  rcases fallback_cases h with ⟨hfalse, h34⟩ | ⟨cc, hcc, hne, hcase⟩
  · rcases fallbackTier34_cases h34 with ⟨f, h3, hf, ht⟩ | ⟨h3, f, h4, hf, ht⟩ | ⟨h3, h4, hf, ht⟩
    · refine ⟨?_, ?_, ?_, ?_, ?_⟩
      · intro cc f' hcc hne _
        rw [hcc] at hfalse
        exact absurd ((jsTruthy_some_iff cc).mpr hne) (by simp [hfalse])
      · intro h2; rw [ht] at h2; simp at h2
      · intro _; exact Or.inl hfalse
      · intro h4'; rw [ht] at h4'; simp at h4'
      · intro hnone; rw [hf] at hnone; simp at hnone
    · refine ⟨?_, ?_, ?_, ?_, ?_⟩
      · intro cc f' hcc hne _
        rw [hcc] at hfalse
        exact absurd ((jsTruthy_some_iff cc).mpr hne) (by simp [hfalse])
      · intro h2; rw [ht] at h2; simp at h2
      · intro _; exact Or.inl hfalse
      · intro _; exact (tier3_none_iff naceCode db).mp h3
      · intro hnone; rw [hf] at hnone; simp at hnone
    · refine ⟨?_, ?_, ?_, ?_, ?_⟩
      · intro cc f' hcc hne _
        rw [hcc] at hfalse
        exact absurd ((jsTruthy_some_iff cc).mpr hne) (by simp [hfalse])
      · intro h2; rw [ht] at h2; simp at h2
      · intro _; exact Or.inl hfalse
      · intro h4'; rw [ht] at h4'; simp at h4'
      · intro _
        refine ⟨ht, (tier3_none_iff naceCode db).mp h3, (tier4_none_iff naceCode db).mp h4, ?_⟩
        intro cc hcc hne
        rw [hcc] at hfalse
        exact absurd ((jsTruthy_some_iff cc).mpr hne) (by simp [hfalse])
  · rcases hcase with ⟨f, h1, hf, ht⟩ | ⟨h1, f, h2, hf, ht⟩ | ⟨h1, h2, h34⟩
    · refine ⟨?_, ?_, ?_, ?_, ?_⟩
      · intro cc' f' hcc' hne' h1'
        rw [hcc'] at hcc
        injection hcc with hcc
        subst hcc
        rw [h1'] at h1
        injection h1 with h1
        injection h1 with h1
        subst h1
        exact ⟨hf, ht⟩
      · intro h2; rw [ht] at h2; simp at h2
      · intro h3; rw [ht] at h3; simp at h3
      · intro h4; rw [ht] at h4; simp at h4
      · intro hnone; rw [hf] at hnone; simp at hnone
    · refine ⟨?_, ?_, ?_, ?_, ?_⟩
      · intro cc' f' hcc' hne' h1'
        rw [hcc'] at hcc
        injection hcc with hcc
        subst hcc
        rw [h1'] at h1
        simp at h1
      · intro _
        obtain ⟨hh, hb⟩ := tier1_none_queries naceCode cc db productHints h1
        exact ⟨cc, hcc, hne, hh, hb⟩
      · intro h3; rw [ht] at h3; simp at h3
      · intro h4; rw [ht] at h4; simp at h4
      · intro hnone; rw [hf] at hnone; simp at hnone
    · rcases fallbackTier34_cases h34 with ⟨f, h3, hf, ht⟩ | ⟨h3, f, h4, hf, ht⟩ | ⟨h3, h4, hf, ht⟩
      · refine ⟨?_, ?_, ?_, ?_, ?_⟩
        · intro cc' f' hcc' hne' h1'
          rw [hcc'] at hcc
          injection hcc with hcc
          subst hcc
          rw [h1'] at h1
          simp at h1
        · intro h2'; rw [ht] at h2'; simp at h2'
        · intro _
          exact Or.inr ⟨cc, hcc, (tier2_none_iff naceCode cc db).mp h2⟩
        · intro h4'; rw [ht] at h4'; simp at h4'
        · intro hnone; rw [hf] at hnone; simp at hnone
      · refine ⟨?_, ?_, ?_, ?_, ?_⟩
        · intro cc' f' hcc' hne' h1'
          rw [hcc'] at hcc
          injection hcc with hcc
          subst hcc
          rw [h1'] at h1
          simp at h1
        · intro h2'; rw [ht] at h2'; simp at h2'
        · intro h3'; rw [ht] at h3'; simp at h3'
        · intro _; exact (tier3_none_iff naceCode db).mp h3
        · intro hnone; rw [hf] at hnone; simp at hnone
      · refine ⟨?_, ?_, ?_, ?_, ?_⟩
        · intro cc' f' hcc' hne' h1'
          rw [hcc'] at hcc
          injection hcc with hcc
          subst hcc
          rw [h1'] at h1
          simp at h1
        · intro h2'; rw [ht] at h2'; simp at h2'
        · intro h3'; rw [ht] at h3'; simp at h3'
        · intro h4'; rw [ht] at h4'; simp at h4'
        · intro _
          refine ⟨ht, (tier3_none_iff naceCode db).mp h3, (tier4_none_iff naceCode db).mp h4, ?_⟩
          intro cc' hcc' hne'
          rw [hcc'] at hcc
          injection hcc with hcc
          subst hcc
          exact ⟨h1, (tier2_none_iff naceCode cc' db).mp h2⟩

/-- Witness for C1: on the all-empty repository the resolver returns the
null factor/null tier outcome, and the theorem instantiates to show all four
tiers missed. -/
theorem tier_fallback_order_spec_witness :
    getEmissionFactorWithFallback "10" dbEmptyW DEFAULT_CONFIG Option.none [] =
      Except.ok { factor := Option.none, tier := Option.none
                , reasoning := "No emission factor found for NACE 10" } ∧
    dbEmptyW.findEmissionFactors (tier3Query "10") = Except.ok [] ∧
    dbEmptyW.findNACEEmissionFactor "10" = Except.ok Option.none := by
  have h : getEmissionFactorWithFallback "10" dbEmptyW DEFAULT_CONFIG Option.none [] =
      Except.ok { factor := Option.none, tier := Option.none
                , reasoning := "No emission factor found for NACE 10" } := by rfl
  have hc := (tier_fallback_order_spec h).2.2.2.2 rfl
  exact ⟨h, hc.2.1, hc.2.2.1⟩

-- ===========================================================================
-- C4: product-hint extraction order
-- ===========================================================================

/-- C4 counterexample: on "Monthly electricity - wind power" the scan pushes
"wind" (energy list position 1) before "electricity" (energy list position
7), so the returned sequence is `["wind", "electricity"]` and "electricity"
does not appear before "wind" as the claim states. -/
theorem extract_hints_order_counterexample :
    extractProductHints (Option.some "Monthly electricity - wind power") = ["wind", "electricity"] ∧
    ¬ ((extractProductHints (Option.some "Monthly electricity - wind power")).indexOf "electricity" <
       (extractProductHints (Option.some "Monthly electricity - wind power")).indexOf "wind") := by
  decide

/-- C4 amended: `extractProductHints "Monthly electricity - wind power"`
returns a sequence containing both "electricity" and "wind", with "wind"
appearing before "electricity" (the energy scan tests "wind" first). -/
theorem extract_hints_order_amended :
    "wind" ∈ extractProductHints (Option.some "Monthly electricity - wind power") ∧
    "electricity" ∈ extractProductHints (Option.some "Monthly electricity - wind power") ∧
    (extractProductHints (Option.some "Monthly electricity - wind power")).indexOf "wind" <
      (extractProductHints (Option.some "Monthly electricity - wind power")).indexOf "electricity" := by
  decide

-- ===========================================================================
-- C5: synthesized tier-2/tier-3 averages
-- ===========================================================================

/-- The `reduce`-style left fold used by tiers 2 and 3 computes the sum of
the mapped intensities. -/
theorem foldl_intensity_sum (l : List EmissionFactor) (a : ℚ) :
    l.foldl (fun sum f => sum + f.emission_factor_kgco2e_per_eur) a =
      a + (l.map (fun f => f.emission_factor_kgco2e_per_eur)).sum := by
  induction l generalizing a with
  | nil => simp
  | cons hd tl ih =>
    simp only [List.foldl_cons, List.map_cons, List.sum_cons, ih]
    ring

/-- C5: a non-empty tier-2 (resp. tier-3) repository answer produces a
synthesized factor whose intensity is the unweighted arithmetic mean of the
constituent intensities, whose product code is null, whose confidence level
is "medium", and whose template fields are copied from the first returned
row (tier 3 overrides the country marker fields with the synthetic EU
values). -/
theorem synthesized_average_spec {ε} (naceCode countryCode : String) (db : DatabaseAdapter ε)
    (f0 : EmissionFactor) (rest : List EmissionFactor) :
    (db.findEmissionFactors (tier2Query naceCode countryCode) = Except.ok (f0 :: rest) →
      ∃ g, getEmissionFactorTier2 naceCode countryCode db = Except.ok (Option.some g) ∧
        g.emission_factor_kgco2e_per_eur =
          ((f0 :: rest).map (fun f => f.emission_factor_kgco2e_per_eur)).sum /
            ((f0 :: rest).length : ℚ) ∧
        g.exiobase_product_code = Option.none ∧
        g.confidence_level = Option.some ConfidenceLevel.medium ∧
        g.id = f0.id ∧ g.nace_code = f0.nace_code ∧ g.category = f0.category ∧
        g.subcategory = f0.subcategory ∧ g.country_code = f0.country_code ∧
        g.country_name = f0.country_name ∧ g.scope = f0.scope ∧
        g.data_source = f0.data_source) ∧
    (db.findEmissionFactors (tier3Query naceCode) = Except.ok (f0 :: rest) →
      ∃ g, getEmissionFactorTier3 naceCode db = Except.ok (Option.some g) ∧
        g.emission_factor_kgco2e_per_eur =
          ((f0 :: rest).map (fun f => f.emission_factor_kgco2e_per_eur)).sum /
            ((f0 :: rest).length : ℚ) ∧
        g.exiobase_product_code = Option.none ∧
        g.confidence_level = Option.some ConfidenceLevel.medium ∧
        g.id = f0.id ∧ g.nace_code = f0.nace_code ∧ g.category = f0.category ∧
        g.subcategory = f0.subcategory ∧ g.scope = f0.scope ∧
        g.data_source = f0.data_source ∧
        g.country_code = Option.some "EU" ∧
        g.country_name = Option.some "European Union (Average)") := by
  constructor
  · intro hq
    unfold getEmissionFactorTier2
    rw [hq]
    simp only
    refine ⟨_, rfl, ?_, rfl, rfl, rfl, rfl, rfl, rfl, rfl, rfl, rfl, rfl⟩
    simp only [foldl_intensity_sum, zero_add]
  · intro hq
    unfold getEmissionFactorTier3
    rw [hq]
    simp only
    refine ⟨_, rfl, ?_, rfl, rfl, rfl, rfl, rfl, rfl, rfl, rfl, rfl, rfl⟩
    simp only [foldl_intensity_sum, zero_add]

/-- A concrete electricity factor used by witnesses (intensity 0.01). -/
def factorWind : EmissionFactor :=
  { id := "ef-wind", nace_code := Option.some "35.11", category := "Electricity"
  , subcategory := Option.some "Electricity by wind"
  , exiobase_product_code := Option.some "p40.11.e"
  , exiobase_product_name := Option.some "Electricity by wind"
  , country_code := Option.some "SE", country_name := Option.some "Sweden"
  , emission_factor_kgco2e_per_eur := 1/100, scope := Option.some Scope.scope3
  , data_source := Option.some "EXIOBASE", confidence_level := Option.some ConfidenceLevel.high
  , is_active := Option.some true }

/-- A concrete electricity factor used by witnesses (intensity 0.02). -/
def factorSolar : EmissionFactor :=
  { factorWind with
    id := "ef-solar"
  , subcategory := Option.some "Electricity by solar"
  , exiobase_product_code := Option.some "p40.11.f"
  , exiobase_product_name := Option.some "Electricity by solar"
  , emission_factor_kgco2e_per_eur := 2/100 }

/-- A concrete electricity factor used by witnesses (intensity 0.03). -/
def factorHydro : EmissionFactor :=
  { factorWind with
    id := "ef-hydro"
  , subcategory := Option.some "Electricity by hydro"
  , exiobase_product_code := Option.some "p40.11.g"
  , exiobase_product_name := Option.some "Electricity by hydro"
  , emission_factor_kgco2e_per_eur := 3/100 }

/-- Witness repository for C5: the tier-2 query for (35.11, SE) and the
tier-3 query for 35.11 both return the three concrete factors. -/
def dbAverages : DatabaseAdapter Unit :=
  { dbEmptyW with
    findEmissionFactors := fun q =>
      if q = tier2Query "35.11" "SE" then Except.ok [factorWind, factorSolar, factorHydro]
      else if q = tier3Query "35.11" then Except.ok [factorWind, factorSolar, factorHydro]
      else Except.ok [] }

/-- Witness for C5: intensities {0.01, 0.02, 0.03} synthesize to the mean
0.02 at tier 2 and tier 3. -/
theorem synthesized_average_spec_witness :
    (∃ g, getEmissionFactorTier2 "35.11" "SE" dbAverages = Except.ok (Option.some g) ∧
      g.emission_factor_kgco2e_per_eur = 2/100 ∧
      g.exiobase_product_code = Option.none ∧
      g.confidence_level = Option.some ConfidenceLevel.medium) ∧
    (∃ g, getEmissionFactorTier3 "35.11" dbAverages = Except.ok (Option.some g) ∧
      g.emission_factor_kgco2e_per_eur = 2/100 ∧
      g.country_code = Option.some "EU") := by
  have hspec := synthesized_average_spec "35.11" "SE" dbAverages factorWind [factorSolar, factorHydro]
  obtain ⟨g2, hg2, hm2, hp2, hc2, _⟩ := hspec.1 (by rfl)
  obtain ⟨g3, hg3, hm3, _, _, _, _, _, _, _, _, hcc3, _⟩ := hspec.2 (by rfl)
  have hmean : (([factorWind, factorSolar, factorHydro]).map
      (fun f => f.emission_factor_kgco2e_per_eur)).sum /
        (([factorWind, factorSolar, factorHydro] : List EmissionFactor).length : ℚ) = 2/100 := by
    simp [factorWind, factorSolar, factorHydro]
    norm_num
  exact ⟨⟨g2, hg2, by rw [hm2, hmean], hp2, hc2⟩, ⟨g3, hg3, by rw [hm3, hmean], hcc3⟩⟩

-- ===========================================================================
-- C10: tier 4 with a null scope-3 factor
-- ===========================================================================

/-- C10: when the aggregated NACE-level record exists but its scope-3 factor
is null, tier 4 still succeeds: `scope_3_factor || 0` collapses to 0, so the
resolver returns a tier-4 match with intensity exactly 0 and confidence
level "low" (and any emissions computed from it are 0) instead of the
null-factor/null-tier failure. -/
theorem tier4_null_scope3_spec {ε} (naceCode : String) (db : DatabaseAdapter ε)
    (config : MatcherConfig) (productHints : List String) (nf : NACEEmissionFactor)
    (hnf : db.findNACEEmissionFactor naceCode = Except.ok (Option.some nf))
    (hs3 : nf.scope_3_factor = Option.none)
    (h3 : db.findEmissionFactors (tier3Query naceCode) = Except.ok []) :
    ∃ f, getEmissionFactorWithFallback naceCode db config Option.none productHints =
        Except.ok { factor := Option.some f, tier := Option.some 4
                  , reasoning := "Global sector average for NACE " ++ naceCode } ∧
      f.emission_factor_kgco2e_per_eur = 0 ∧
      f.confidence_level = Option.some ConfidenceLevel.low ∧
      ∀ amount currency exchangeRate,
        calculateEmissions amount f.emission_factor_kgco2e_per_eur currency exchangeRate = 0 := by
  have ht3 : getEmissionFactorTier3 naceCode db = Except.ok Option.none :=
    (tier3_none_iff naceCode db).mpr h3
  have ht4 : getEmissionFactorTier4 naceCode db =
      Except.ok (Option.some
        { id := nf.id
        , nace_code := Option.some nf.nace_code
        , category := jsOrStr nf.nace_description ("NACE " ++ naceCode)
        , subcategory := Option.none
        , exiobase_product_code := Option.none
        , exiobase_product_name := Option.some "Sector Average"
        , country_code := Option.some "XX"
        , country_name := Option.some "Global Average"
        , emission_factor_kgco2e_per_eur := nf.scope_3_factor.getD 0
        , scope := Option.some Scope.scope3
        , confidence_level := Option.some ConfidenceLevel.low
        , data_source := Option.some (jsOrStr nf.source "EXIOBASE_AGGREGATED")
        , metadata := Option.some
            { tier := Option.some 4
            , fallback_reason := Option.some "No detailed data available, using global sector average" } }) := by
    unfold getEmissionFactorTier4
    rw [hnf]
  refine ⟨{ id := nf.id
          , nace_code := Option.some nf.nace_code
          , category := jsOrStr nf.nace_description ("NACE " ++ naceCode)
          , subcategory := Option.none
          , exiobase_product_code := Option.none
          , exiobase_product_name := Option.some "Sector Average"
          , country_code := Option.some "XX"
          , country_name := Option.some "Global Average"
          , emission_factor_kgco2e_per_eur := nf.scope_3_factor.getD 0
          , scope := Option.some Scope.scope3
          , confidence_level := Option.some ConfidenceLevel.low
          , data_source := Option.some (jsOrStr nf.source "EXIOBASE_AGGREGATED")
          , metadata := Option.some
              { tier := Option.some 4
              , fallback_reason := Option.some "No detailed data available, using global sector average" } }, ?_, ?_, rfl, ?_⟩
  · unfold getEmissionFactorWithFallback fallbackTier34
    rw [ht3]
    simp only
    rw [ht4]
  · simp [hs3]
  · intro amount currency exchangeRate
    simp [calculateEmissions, hs3]

/-- Witness repository for C10: NACE 49.10 has an aggregated record with a
null scope-3 factor and nothing else. -/
def dbNullScope3 : DatabaseAdapter Unit :=
  { dbEmptyW with
    findNACEEmissionFactor := fun naceCode =>
      if naceCode = "49.10" then
        Except.ok (Option.some
          { id := "nace-49.10", nace_code := "49.10"
          , nace_description := Option.some "Passenger rail transport"
          , scope_3_factor := Option.none
          , source := Option.some "EXIOBASE_AGGREGATED" })
      else Except.ok Option.none }

/-- Witness for C10 at NACE 49.10 on the concrete repository. -/
theorem tier4_null_scope3_spec_witness :
    ∃ f, getEmissionFactorWithFallback "49.10" dbNullScope3 DEFAULT_CONFIG Option.none [] =
        Except.ok { factor := Option.some f, tier := Option.some 4
                  , reasoning := "Global sector average for NACE 49.10" } ∧
      f.emission_factor_kgco2e_per_eur = 0 ∧
      f.confidence_level = Option.some ConfidenceLevel.low := by
  obtain ⟨f, hf, hz, hl, _⟩ :=
    tier4_null_scope3_spec "49.10" dbNullScope3 DEFAULT_CONFIG []
      { id := "nace-49.10", nace_code := "49.10"
      , nace_description := Option.some "Passenger rail transport"
      , scope_3_factor := Option.none
      , source := Option.some "EXIOBASE_AGGREGATED" }
      (by rfl) (by rfl) (by rfl)
  exact ⟨f, hf, hz, hl⟩

-- ===========================================================================
-- Shape of every result produced by matchTransaction
-- ===========================================================================

/-- Every result of `matchTransaction` is either the terminal no-match
record, the pre-mapped account-code record (raw base confidence, tier 1), or
a tiered record whose confidence is the clamped base-plus-adjustment formula
and whose fallback flag records `tier != 1`. -/
def resultShape (config : MatcherConfig) (r : MatchResult) : Prop :=
  r = noMatchResult ∨
  (r.method = MatchMethod.account_mapping ∧ r.tier = Option.some 1 ∧
    r.confidence = config.methodConfidence.account_mapping ∧ r.fallbackApplied = false) ∨
  (∃ k, r.tier = Option.some k ∧ (k = 1 ∨ k = 2 ∨ k = 3 ∨ k = 4) ∧
    (r.method = MatchMethod.vat_lookup ∨ r.method = MatchMethod.account_mapping ∨
      r.method = MatchMethod.supplier_mapping) ∧
    r.confidence = max 0 (min 1 (methodBaseConfidence config r.method + tierAdjustmentOf config r.tier)) ∧
    r.fallbackApplied = (r.tier != Option.some 1))

/-- Results of strategy 3 satisfy `resultShape`. -/
theorem strategy3Match_shape {ε} {t : Transaction} {db : DatabaseAdapter ε}
    {config : MatcherConfig} {countryCode : Option String} {productHints : List String}
    {r : MatchResult}
    (h : strategy3Match t db config countryCode productHints = Except.ok r) :
    resultShape config r := by
  unfold strategy3Match at h
  cases hs : matchBySupplierName t db config with
  | error e => rw [hs] at h; exact absurd h (by simp)
  | ok o =>
    rw [hs] at h
    cases o with
    | none =>
      simp only at h
      injection h with h
      subst h
      exact Or.inl rfl
    | some nace =>
      simp only at h
      by_cases hne : nace = ""
      · rw [if_pos hne] at h
        injection h with h
        subst h
        exact Or.inl rfl
      · rw [if_neg hne] at h
        cases hfb : getEmissionFactorWithFallback nace db config countryCode productHints with
        | error e => rw [hfb] at h; exact absurd h (by simp)
        | ok fb =>
          rw [hfb] at h
          simp only at h
          cases hf : fb.factor with
          | none =>
            rw [hf] at h
            simp only at h
            injection h with h
            subst h
            exact Or.inl rfl
          | some factor =>
            rw [hf] at h
            simp only at h
            injection h with h
            subst h
            rcases fallback_shape hfb with ⟨hfn, _⟩ | ⟨f', k, hf', ht', hk⟩
            · rw [hf] at hfn; exact absurd hfn (by simp)
            · exact Or.inr (Or.inr ⟨k, ht', hk, Or.inr (Or.inr rfl), rfl, rfl⟩)

/-- Results of the NACE-code part of strategy 2 satisfy `resultShape`. -/
theorem strategy2Nace_shape {ε} {t : Transaction} {db : DatabaseAdapter ε}
    {config : MatcherConfig} {countryCode : Option String} {productHints : List String}
    {naceOpt : Option String} {r : MatchResult}
    (h : strategy2Nace t db config countryCode productHints naceOpt = Except.ok r) :
    resultShape config r := by
  unfold strategy2Nace at h
  cases naceOpt with
  | none => exact strategy3Match_shape h
  | some nace =>
    simp only at h
    by_cases hne : nace = ""
    · rw [if_pos hne] at h
      exact strategy3Match_shape h
    · rw [if_neg hne] at h
      cases hfb : getEmissionFactorWithFallback nace db config countryCode productHints with
      | error e => rw [hfb] at h; exact absurd h (by simp)
      | ok fb =>
        rw [hfb] at h
        simp only at h
        cases hf : fb.factor with
        | none =>
          rw [hf] at h
          simp only at h
          exact strategy3Match_shape h
        | some factor =>
          rw [hf] at h
          simp only at h
          injection h with h
          subst h
          rcases fallback_shape hfb with ⟨hfn, _⟩ | ⟨f', k, hf', ht', hk⟩
          · rw [hf] at hfn; exact absurd hfn (by simp)
          · exact Or.inr (Or.inr ⟨k, ht', hk, Or.inr (Or.inl rfl), rfl, rfl⟩)

/-- Results of strategy 2 satisfy `resultShape`. -/
theorem strategy2Match_shape {ε} {t : Transaction} {db : DatabaseAdapter ε}
    {companyId : Option String} {config : MatcherConfig} {countryCode : Option String}
    {productHints : List String} {r : MatchResult}
    (h : strategy2Match t db companyId config countryCode productHints = Except.ok r) :
    resultShape config r := by
  unfold strategy2Match at h
  by_cases hgate : (jsTruthy t.account_code && jsTruthy companyId) = true
  · rw [if_pos hgate] at h
    cases ham : matchByAccountCode t companyId db with
    | error e => rw [ham] at h; exact absurd h (by simp)
    | ok am =>
      rw [ham] at h
      simp only at h
      cases hef : am.emissionFactorId with
      | none =>
        rw [hef] at h
        simp only at h
        exact strategy2Nace_shape h
      | some efId =>
        rw [hef] at h
        simp only at h
        by_cases hne : efId = ""
        · rw [if_pos hne] at h
          exact strategy2Nace_shape h
        · rw [if_neg hne] at h
          cases hby : db.getEmissionFactorById efId with
          | error e => rw [hby] at h; exact absurd h (by simp)
          | ok o =>
            rw [hby] at h
            cases o with
            | none =>
              simp only at h
              exact strategy2Nace_shape h
            | some factor =>
              simp only at h
              injection h with h
              subst h
              exact Or.inr (Or.inl ⟨rfl, rfl, rfl, rfl⟩)
  · rw [if_neg hgate] at h
    exact strategy3Match_shape h

/-- Every successful `matchTransaction` result satisfies `resultShape`. -/
theorem matchTransaction_shape {ε} {t : Transaction} {db : DatabaseAdapter ε}
    {companyId : Option String} {config : MatcherConfig} {r : MatchResult}
    (h : matchTransaction t db companyId config = Except.ok r) :
    resultShape config r := by
  unfold matchTransaction at h
  by_cases hv : jsTruthy t.vat_number = true
  · rw [if_pos hv] at h
    cases hvm : matchByVAT t db config with
    | error e => rw [hvm] at h; exact absurd h (by simp)
    | ok vm =>
      rw [hvm] at h
      simp only at h
      cases hnc : vm.naceCode with
      | none =>
        rw [hnc] at h
        simp only at h
        exact strategy2Match_shape h
      | some nace =>
        rw [hnc] at h
        simp only at h
        by_cases hne : nace = ""
        · rw [if_pos hne] at h
          exact strategy2Match_shape h
        · rw [if_neg hne] at h
          cases hfb : getEmissionFactorWithFallback nace db config (effectiveCountry t vm)
              (extractProductHints t.description) with
          | error e => rw [hfb] at h; exact absurd h (by simp)
          | ok fb =>
            rw [hfb] at h
            simp only at h
            cases hf : fb.factor with
            | none =>
              rw [hf] at h
              simp only at h
              exact strategy2Match_shape h
            | some factor =>
              rw [hf] at h
              simp only at h
              injection h with h
              subst h
              rcases fallback_shape hfb with ⟨hfn, _⟩ | ⟨f', k, hf', ht', hk⟩
              · rw [hf] at hfn; exact absurd hfn (by simp)
              · exact Or.inr (Or.inr ⟨k, ht', hk, Or.inl rfl, rfl, rfl⟩)
  · rw [if_neg hv] at h
    exact strategy2Match_shape h

-- ===========================================================================
-- C6: the fallback flag
-- ===========================================================================

/-- A plain transaction with neither VAT identifier nor account code. -/
def txPlain : Transaction :=
  { id := "t-plain", supplier_name := "Unknown Vendor", amount := 100 }

/-- C6: `fallbackApplied` is true exactly when the returned tier is a
matched tier other than 1; a tier-1 match and the failed match (null tier,
method "none") both carry `fallbackApplied = false`. -/
theorem fallback_flag_spec {ε} {t : Transaction} {db : DatabaseAdapter ε}
    {companyId : Option String} {config : MatcherConfig} {r : MatchResult}
    (h : matchTransaction t db companyId config = Except.ok r) :
    (r.fallbackApplied = true ↔ ∃ k, r.tier = Option.some k ∧ k ≠ 1) ∧
    (r.tier = Option.some 1 → r.fallbackApplied = false) ∧
    (r.tier = Option.none → r.method = MatchMethod.none ∧ r.fallbackApplied = false) := by
  rcases matchTransaction_shape h with hnm | ⟨hm, ht, hc, hf⟩ | ⟨k, ht, hk, hm, hc, hf⟩
  · subst hnm
    refine ⟨?_, ?_, ?_⟩
    · constructor
      · intro hfa; exact absurd hfa (by simp [noMatchResult])
      · rintro ⟨k, hk, _⟩; exact absurd hk (by simp [noMatchResult])
    · intro _; rfl
    · intro _; exact ⟨rfl, rfl⟩
  · refine ⟨?_, ?_, ?_⟩
    · constructor
      · intro hfa; rw [hf] at hfa; exact absurd hfa (by simp)
      · rintro ⟨k, hk, hkne⟩
        rw [ht] at hk
        injection hk with hk
        exact absurd hk.symm hkne
    · intro _; exact hf
    · intro h0; rw [ht] at h0; exact absurd h0 (by simp)
  · by_cases hk1 : k = 1
    · subst hk1
      refine ⟨?_, ?_, ?_⟩
      · constructor
        · intro hfa
          rw [hf, ht] at hfa
          exact absurd hfa (by simp)
        · rintro ⟨k', hk', hkne⟩
          rw [ht] at hk'
          injection hk' with hk'
          exact absurd hk'.symm hkne
      · intro _; rw [hf, ht]; simp
      · intro h0; rw [ht] at h0; exact absurd h0 (by simp)
    · refine ⟨?_, ?_, ?_⟩
      · constructor
        · intro _; exact ⟨k, ht, hk1⟩
        · intro _
          rw [hf, ht]
          simp only [bne_iff_ne, ne_eq, Option.some.injEq]
          exact fun hcontra => hk1 hcontra
      · intro h1
        rw [ht] at h1
        injection h1 with h1
        exact absurd h1 hk1
      · intro h0; rw [ht] at h0; exact absurd h0 (by simp)

/-- Witness for C6: the all-empty repository yields the terminal no-match
result, whose flag and tier instantiate the theorem. -/
theorem fallback_flag_spec_witness :
    matchTransaction txPlain dbEmptyW Option.none DEFAULT_CONFIG = Except.ok noMatchResult ∧
    (noMatchResult.fallbackApplied = true ↔ ∃ k, noMatchResult.tier = Option.some k ∧ k ≠ 1) := by
  have h : matchTransaction txPlain dbEmptyW Option.none DEFAULT_CONFIG = Except.ok noMatchResult := by
    rfl
  exact ⟨h, (fallback_flag_spec h).1⟩

-- ===========================================================================
-- C2: the confidence formula
-- ===========================================================================

/-- A transaction carrying only an account code. -/
def txAccount : Transaction :=
  { id := "t-acc", supplier_name := "Acme", account_code := Option.some "4010", amount := 100 }

/-- Witness repository with a pre-mapped account-code mapping for company
"co1", account 4010. -/
def dbPremapped : DatabaseAdapter Unit :=
  { dbEmptyW with
    getAccountMapping := fun companyId accountCode =>
      if companyId = "co1" && accountCode = "4010" then
        Except.ok (Option.some
          { id := "m1", company_id := "co1", account_code := "4010"
          , nace_code := Option.some "35.11", emission_factor_id := Option.some "ef-wind" })
      else Except.ok Option.none
  , getEmissionFactorById := fun i =>
      if i = "ef-wind" then Except.ok (Option.some factorWind) else Except.ok Option.none }

/-- A configuration whose account-mapping base confidence lies outside
`[0,1]`. -/
def cfgAccountHigh : MatcherConfig :=
  { DEFAULT_CONFIG with
    methodConfidence := { DEFAULT_CONFIG.methodConfidence with account_mapping := 3/2 } }

/-- C2 counterexample: under a configuration with account-mapping base
confidence 1.5, the pre-mapped account-code path stores the raw base
confidence 1.5, which differs from the claimed clamp formula (clamped value
1). -/
theorem confidence_formula_counterexample :
    (matchTransaction txAccount dbPremapped (Option.some "co1") cfgAccountHigh).map
        (fun r => (r.method, r.tier, r.confidence)) =
      Except.ok (MatchMethod.account_mapping, Option.some 1, 3/2) ∧
    (3/2 : ℚ) ≠ max 0 (min 1 (methodBaseConfidence cfgAccountHigh MatchMethod.account_mapping +
      tierAdjustmentOf cfgAccountHigh (Option.some 1))) := by
  constructor
  · rfl
  · show (3/2 : ℚ) ≠ max 0 (min 1 (3/2 + 0))
    have h1 : min (1 : ℚ) (3/2 + 0) = 1 := min_eq_left (by norm_num)
    have h2 : max (0 : ℚ) (1 : ℚ) = 1 := max_eq_right (by norm_num)
    rw [h1, h2]
    norm_num

/-- C2 amended: every successful result's confidence equals the clamped
base-plus-tier-adjustment formula, except on the pre-mapped account-code
path, which stores the raw (unclamped, penalty-free) account-mapping base
confidence; consequently, whenever the configured base confidence lies in
`[0,1]`, a tier-1 result's confidence equals exactly the base confidence of
its method. -/
theorem confidence_formula_amended {ε} {t : Transaction} {db : DatabaseAdapter ε}
    {companyId : Option String} {config : MatcherConfig} {r : MatchResult}
    (h : matchTransaction t db companyId config = Except.ok r)
    (hm : r.method ≠ MatchMethod.none) :
    (r.confidence = max 0 (min 1 (methodBaseConfidence config r.method +
        tierAdjustmentOf config r.tier)) ∨
      (r.method = MatchMethod.account_mapping ∧ r.tier = Option.some 1 ∧
        r.confidence = config.methodConfidence.account_mapping)) ∧
    (0 ≤ methodBaseConfidence config r.method → methodBaseConfidence config r.method ≤ 1 →
      r.tier = Option.some 1 → r.confidence = methodBaseConfidence config r.method) := by
  rcases matchTransaction_shape h with hnm | ⟨hma, ht, hc, hf⟩ | ⟨k, ht, hk, hmm, hc, hf⟩
  · subst hnm
    exact absurd rfl hm
  · refine ⟨Or.inr ⟨hma, ht, hc⟩, ?_⟩
    intro _ _ _
    rw [hc, hma]
    rfl
  · refine ⟨Or.inl hc, ?_⟩
    intro h0 h1 htier
    rw [hc, htier]
    have hz : tierAdjustmentOf config (Option.some 1) = 0 := rfl
    rw [hz, add_zero]
    rw [min_eq_right h1, max_eq_right h0]

/-- The result record of the pre-mapped account-code path for `txAccount`
under the default configuration. -/
def resultPremappedDefault : MatchResult :=
  { emissionFactor := Option.some factorWind
  , naceCode := Option.some "35.11"
  , countryCode := Option.some "SE"
  , productCode := Option.some "p40.11.e"
  , confidence := 85/100
  , tier := Option.some 1
  , method := MatchMethod.account_mapping
  , reasoning := "Account code 4010 → Pre-mapped emission factor"
  , fallbackApplied := false }

/-- Witness for C2 amended: under the default configuration the pre-mapped
path yields confidence exactly the account-mapping base confidence 0.85. -/
theorem confidence_formula_amended_witness :
    matchTransaction txAccount dbPremapped (Option.some "co1") DEFAULT_CONFIG =
      Except.ok resultPremappedDefault ∧
    resultPremappedDefault.confidence =
      methodBaseConfidence DEFAULT_CONFIG resultPremappedDefault.method := by
  have h : matchTransaction txAccount dbPremapped (Option.some "co1") DEFAULT_CONFIG =
      Except.ok resultPremappedDefault := by rfl
  refine ⟨h, (confidence_formula_amended h (by decide)).2 ?_ ?_ rfl⟩
  · show (0 : ℚ) ≤ 85/100
    norm_num
  · show (85/100 : ℚ) ≤ 1
    norm_num

-- ===========================================================================
-- C3: strict strategy priority
-- ===========================================================================

/-- `matchByVAT` only consults the VAT cache operation of the repository. -/
theorem matchByVAT_congr {ε} (t : Transaction) (db2 db : DatabaseAdapter ε)
    (config : MatcherConfig) (hv : db2.getVATCache = db.getVATCache) :
    matchByVAT t db2 config = matchByVAT t db config := by
  unfold matchByVAT
  rw [hv]

/-- The tier-1 hint loop only consults `findEmissionFactor`. -/
theorem tier1Loop_congr {ε} (naceCode countryCode : String) (db2 db : DatabaseAdapter ε)
    (hf : db2.findEmissionFactor = db.findEmissionFactor) :
    ∀ productHints, tier1Loop naceCode countryCode db2 productHints =
      tier1Loop naceCode countryCode db productHints := by
  intro productHints
  induction productHints with
  | nil => rfl
  | cons hd tl ih =>
    unfold tier1Loop
    rw [hf, ih]

/-- Tier 1 only consults `findEmissionFactor`. -/
theorem getEmissionFactorTier1_congr {ε} (naceCode countryCode : String)
    (db2 db : DatabaseAdapter ε) (productHints : List String)
    (hf : db2.findEmissionFactor = db.findEmissionFactor) :
    getEmissionFactorTier1 naceCode countryCode db2 productHints =
      getEmissionFactorTier1 naceCode countryCode db productHints := by
  unfold getEmissionFactorTier1
  rw [tier1Loop_congr naceCode countryCode db2 db hf, hf]

/-- Tier 2 only consults `findEmissionFactors`. -/
theorem getEmissionFactorTier2_congr {ε} (naceCode countryCode : String)
    (db2 db : DatabaseAdapter ε) (hfs : db2.findEmissionFactors = db.findEmissionFactors) :
    getEmissionFactorTier2 naceCode countryCode db2 = getEmissionFactorTier2 naceCode countryCode db := by
  unfold getEmissionFactorTier2
  rw [hfs]

/-- Tier 3 only consults `findEmissionFactors`. -/
theorem getEmissionFactorTier3_congr {ε} (naceCode : String) (db2 db : DatabaseAdapter ε)
    (hfs : db2.findEmissionFactors = db.findEmissionFactors) :
    getEmissionFactorTier3 naceCode db2 = getEmissionFactorTier3 naceCode db := by
  unfold getEmissionFactorTier3
  rw [hfs]

/-- Tier 4 only consults `findNACEEmissionFactor`. -/
theorem getEmissionFactorTier4_congr {ε} (naceCode : String) (db2 db : DatabaseAdapter ε)
    (hn : db2.findNACEEmissionFactor = db.findNACEEmissionFactor) :
    getEmissionFactorTier4 naceCode db2 = getEmissionFactorTier4 naceCode db := by
  unfold getEmissionFactorTier4
  rw [hn]

/-- The whole fallback resolver only consults the three factor-lookup
operations. -/
theorem fallback_congr {ε} (naceCode : String) (db2 db : DatabaseAdapter ε)
    (config : MatcherConfig) (countryCode : Option String) (productHints : List String)
    (hf : db2.findEmissionFactor = db.findEmissionFactor)
    (hfs : db2.findEmissionFactors = db.findEmissionFactors)
    (hn : db2.findNACEEmissionFactor = db.findNACEEmissionFactor) :
    getEmissionFactorWithFallback naceCode db2 config countryCode productHints =
      getEmissionFactorWithFallback naceCode db config countryCode productHints := by
  have h34 : fallbackTier34 naceCode db2 = fallbackTier34 naceCode db := by
    unfold fallbackTier34
    rw [getEmissionFactorTier3_congr naceCode db2 db hfs,
        getEmissionFactorTier4_congr naceCode db2 db hn]
  unfold getEmissionFactorWithFallback
  cases countryCode with
  | none => exact h34
  | some cc =>
    simp only
    by_cases hemp : cc = ""
    · rw [if_pos hemp, if_pos hemp, h34]
    · rw [if_neg hemp, if_neg hemp,
          getEmissionFactorTier1_congr naceCode cc db2 db productHints hf,
          getEmissionFactorTier2_congr naceCode cc db2 db hfs, h34]

/-- The result constructed by the VAT strategy when the cache yields a NACE
code and the tier resolver yields a factor (matcher.ts lines 425-451). -/
theorem matchTransaction_vat_path {ε} {t : Transaction} {db : DatabaseAdapter ε}
    {companyId : Option String} {config : MatcherConfig} {vm : VATMatch}
    {naceCode : String} {fb : FallbackResult} {factor : EmissionFactor}
    (hv : jsTruthy t.vat_number = true)
    (hvm : matchByVAT t db config = Except.ok vm)
    (hnc : vm.naceCode = Option.some naceCode) (hne : naceCode ≠ "")
    (hfb : getEmissionFactorWithFallback naceCode db config (effectiveCountry t vm)
      (extractProductHints t.description) = Except.ok fb)
    (hf : fb.factor = Option.some factor) :
    matchTransaction t db companyId config =
      Except.ok
        { emissionFactor := Option.some factor
        , naceCode := Option.some naceCode
        , countryCode := jsOrNull (effectiveCountry t vm)
        , productCode := factor.exiobase_product_code
        , confidence := max 0 (min 1 (config.methodConfidence.vat_lookup +
            tierAdjustmentOf config fb.tier))
        , tier := fb.tier
        , method := MatchMethod.vat_lookup
        , reasoning := "VAT lookup → " ++ fb.reasoning
        , fallbackApplied := fb.tier != Option.some 1 } := by
  unfold matchTransaction
  rw [if_pos hv, hvm]
  simp only
  rw [hnc]
  simp only
  rw [if_neg hne, hfb]
  simp only
  rw [hf]

/-- C3: when the VAT strategy resolves (cache yields a NACE code and the
tier resolver yields a factor), the result's method is "vat_lookup", and the
account-code and supplier-name repository operations have no influence on
the result: any adapter agreeing on the four operations the VAT path uses
produces the identical result. -/
theorem strategy_priority_spec {ε} {t : Transaction} {db : DatabaseAdapter ε}
    {companyId : Option String} {config : MatcherConfig} {vm : VATMatch}
    {naceCode : String} {fb : FallbackResult} {factor : EmissionFactor}
    (hv : jsTruthy t.vat_number = true)
    (hvm : matchByVAT t db config = Except.ok vm)
    (hnc : vm.naceCode = Option.some naceCode) (hne : naceCode ≠ "")
    (hfb : getEmissionFactorWithFallback naceCode db config (effectiveCountry t vm)
      (extractProductHints t.description) = Except.ok fb)
    (hf : fb.factor = Option.some factor) :
    (∃ r, matchTransaction t db companyId config = Except.ok r ∧
      r.method = MatchMethod.vat_lookup ∧ r.emissionFactor = Option.some factor ∧
      r.tier = fb.tier) ∧
    (∀ db2 : DatabaseAdapter ε,
      db2.getVATCache = db.getVATCache →
      db2.findEmissionFactor = db.findEmissionFactor →
      db2.findEmissionFactors = db.findEmissionFactors →
      db2.findNACEEmissionFactor = db.findNACEEmissionFactor →
      matchTransaction t db2 companyId config = matchTransaction t db companyId config) := by
  constructor
  · exact ⟨_, matchTransaction_vat_path hv hvm hnc hne hfb hf, rfl, rfl, rfl⟩
  · intro db2 h1 h2 h3 h4
    have hvm2 : matchByVAT t db2 config = Except.ok vm := by
      rw [matchByVAT_congr t db2 db config h1]
      exact hvm
    have hfb2 : getEmissionFactorWithFallback naceCode db2 config (effectiveCountry t vm)
        (extractProductHints t.description) = Except.ok fb := by
      rw [fallback_congr naceCode db2 db config _ _ h2 h3 h4]
      exact hfb
    rw [matchTransaction_vat_path hv hvm2 hnc hne hfb2 hf,
        matchTransaction_vat_path hv hvm hnc hne hfb hf]

/-- A concrete valid VAT-cache entry resolving SE556036 to NACE 35.11. -/
def cacheVatW : VATCache :=
  { id := "vc1", vat_number := "SE556036", country_code := Option.some "SE"
  , nace_code := Option.some "35.11", is_valid := true }

/-- A transaction carrying a Swedish VAT identifier. -/
def txVat : Transaction :=
  { id := "t-vat", supplier_name := "Vattenfall AB"
  , vat_number := Option.some "SE556036", amount := 1000 }

/-- Witness repository: the VAT cache resolves SE556036 and the hint-less
tier-1 query for (35.11, SE) returns the wind factor. -/
def dbVat : DatabaseAdapter Unit :=
  { dbEmptyW with
    getVATCache := fun v =>
      if v = "SE556036" then Except.ok (Option.some cacheVatW) else Except.ok Option.none
  , findEmissionFactor := fun q =>
      if q = tier1BaseQuery "35.11" "SE" then Except.ok (Option.some factorWind)
      else Except.ok Option.none }

/-- The same repository with failing account-code, supplier-name and by-id
operations: if strategy 2 or 3 were attempted the whole call would fail. -/
def dbVatPoisoned : DatabaseAdapter Unit :=
  { dbVat with
    getEmissionFactorById := fun _ => Except.error ()
  , getAccountMapping := fun _ _ => Except.error ()
  , getSupplierMapping := fun _ => Except.error ()
  , incrementSupplierUsage := fun _ => Except.error () }

/-- Witness for C3: on the concrete repository the VAT strategy wins, and
poisoning the account/supplier operations does not change the result. -/
theorem strategy_priority_spec_witness :
    (∃ r, matchTransaction txVat dbVat Option.none DEFAULT_CONFIG = Except.ok r ∧
      r.method = MatchMethod.vat_lookup ∧ r.emissionFactor = Option.some factorWind) ∧
    matchTransaction txVat dbVatPoisoned Option.none DEFAULT_CONFIG =
      matchTransaction txVat dbVat Option.none DEFAULT_CONFIG := by
  have hvm : matchByVAT txVat dbVat DEFAULT_CONFIG =
      Except.ok { naceCode := Option.some "35.11", countryCode := Option.some "SE" } := by rfl
  have hfb : getEmissionFactorWithFallback "35.11" dbVat DEFAULT_CONFIG
      (effectiveCountry txVat { naceCode := Option.some "35.11", countryCode := Option.some "SE" })
      (extractProductHints txVat.description) =
      Except.ok { factor := Option.some factorWind, tier := Option.some 1
                , reasoning := "Exact match: SE + NACE 35.11" } := by rfl
  obtain ⟨⟨r, hr, hm, hef, _⟩, hcong⟩ :=
    @strategy_priority_spec Unit txVat dbVat Option.none DEFAULT_CONFIG
      { naceCode := Option.some "35.11", countryCode := Option.some "SE" } "35.11"
      { factor := Option.some factorWind, tier := Option.some 1
      , reasoning := "Exact match: SE + NACE 35.11" } factorWind
      (by decide) hvm rfl (by decide) hfb rfl
  exact ⟨⟨r, hr, hm, hef⟩, hcong dbVatPoisoned rfl rfl rfl rfl⟩

-- ===========================================================================
-- C9: country precedence
-- ===========================================================================

/-- `matchByVAT` on a cache hit with a valid entry returns the cached NACE
code and the identifier-derived country, falling back to the cache's stored
country only when derivation fails (matcher.ts line 345). -/
theorem matchByVAT_cached {ε} {t : Transaction} {db : DatabaseAdapter ε}
    {config : MatcherConfig} {v : String} {cached : VATCache}
    (hv : t.vat_number = Option.some v) (hvne : v ≠ "")
    (hcfg : config.cacheVAT = true)
    (hcache : db.getVATCache v = Except.ok (Option.some cached))
    (hvalid : cached.is_valid = true) :
    matchByVAT t db config = Except.ok
      { naceCode := cached.nace_code
      , countryCode := jsOr (getCountryFromVAT v) cached.country_code } := by
  unfold matchByVAT
  rw [hv]
  simp only
  rw [if_neg hvne, if_pos hcfg, hcache]
  simp only
  rw [if_pos hvalid]

/-- C9: strategy 1 updates the working country only when
`supplier_country` is not truthy; a truthy `supplier_country` is what the
tier resolver receives even when the VAT prefix derives another country, and
the VAT-derived country beats the cache's stored country. -/
theorem country_precedence_spec {ε} (t : Transaction) (vm : VATMatch)
    (db : DatabaseAdapter ε) (config : MatcherConfig) (v : String) (cached : VATCache) :
    (jsTruthy t.supplier_country = true → effectiveCountry t vm = t.supplier_country) ∧
    (jsTruthy t.supplier_country = false → jsTruthy vm.countryCode = true →
      effectiveCountry t vm = vm.countryCode) ∧
    (jsTruthy t.supplier_country = false → jsTruthy vm.countryCode = false →
      effectiveCountry t vm = t.supplier_country) ∧
    (t.vat_number = Option.some v → v ≠ "" → config.cacheVAT = true →
      db.getVATCache v = Except.ok (Option.some cached) → cached.is_valid = true →
      matchByVAT t db config = Except.ok
        { naceCode := cached.nace_code
        , countryCode := if jsTruthy (getCountryFromVAT v) then getCountryFromVAT v
                         else cached.country_code }) ∧
    (∀ companyId naceCode fb factor,
      jsTruthy t.vat_number = true →
      matchByVAT t db config = Except.ok vm →
      vm.naceCode = Option.some naceCode → naceCode ≠ "" →
      getEmissionFactorWithFallback naceCode db config (effectiveCountry t vm)
        (extractProductHints t.description) = Except.ok fb →
      fb.factor = Option.some factor →
      ∃ r, matchTransaction t db companyId config = Except.ok r ∧
        r.countryCode = jsOrNull (effectiveCountry t vm)) := by
  refine ⟨?_, ?_, ?_, ?_, ?_⟩
  · intro hsc
    unfold effectiveCountry
    rw [hsc]
    simp
  · intro hsc hvc
    unfold effectiveCountry
    rw [hsc, hvc]
    simp
  · intro hsc hvc
    unfold effectiveCountry
    rw [hsc, hvc]
    simp
  · intro hv hvne hcfg hcache hvalid
    exact matchByVAT_cached hv hvne hcfg hcache hvalid
  · intro companyId naceCode fb factor hv hvm hnc hne hfb hf
    exact ⟨_, matchTransaction_vat_path hv hvm hnc hne hfb hf, rfl⟩

/-- A transaction whose `supplier_country` (NO) disagrees with the country
derived from its VAT prefix (SE). -/
def txNorwegian : Transaction :=
  { id := "t-no", supplier_name := "Vattenfall AB"
  , vat_number := Option.some "SE556036"
  , supplier_country := Option.some "NO", amount := 1000 }

/-- Witness for C9: with `supplier_country = "NO"` and VAT prefix SE the
effective country is NO; without `supplier_country` it is the VAT-derived
SE; and `matchByVAT` reports the derived country, not the cached one. -/
theorem country_precedence_spec_witness :
    effectiveCountry txNorwegian
        { naceCode := Option.some "35.11", countryCode := Option.some "SE" } =
      Option.some "NO" ∧
    effectiveCountry txVat
        { naceCode := Option.some "35.11", countryCode := Option.some "SE" } =
      Option.some "SE" ∧
    matchByVAT txNorwegian dbVat DEFAULT_CONFIG = Except.ok
      { naceCode := Option.some "35.11"
      , countryCode := if jsTruthy (getCountryFromVAT "SE556036") then getCountryFromVAT "SE556036"
                       else cacheVatW.country_code } := by
  refine ⟨?_, ?_, ?_⟩
  · have h := (country_precedence_spec txNorwegian
      { naceCode := Option.some "35.11", countryCode := Option.some "SE" }
      dbVat DEFAULT_CONFIG "SE556036" cacheVatW).1 (by decide)
    rw [h]
    rfl
  · have h := (country_precedence_spec txVat
      { naceCode := Option.some "35.11", countryCode := Option.some "SE" }
      dbVat DEFAULT_CONFIG "SE556036" cacheVatW).2.1 (by decide) (by decide)
    rw [h]
  · exact (country_precedence_spec txNorwegian
      { naceCode := Option.some "35.11", countryCode := Option.some "SE" }
      dbVat DEFAULT_CONFIG "SE556036" cacheVatW).2.2.2.1 rfl (by decide) rfl rfl rfl

-- ===========================================================================
-- C7: VAT tier-1 happy path under the default configuration
-- ===========================================================================

/-- A repository in which a tier-1-eligible factor exists for every factor
query, but the VAT cache is empty. -/
def dbAllFactors : DatabaseAdapter Unit :=
  { dbEmptyW with
    findEmissionFactor := fun _ => Except.ok (Option.some factorWind)
  , findEmissionFactors := fun _ => Except.ok [factorWind] }

/-- A transaction with a recognized VAT prefix and nothing else usable. -/
def txVatOnly : Transaction :=
  { id := "t-c7", supplier_name := "Nobody GmbH"
  , vat_number := Option.some "SE999", amount := 50 }

/-- C7 counterexample: a recognized VAT prefix (SE) and a present
tier-1-eligible factor are not sufficient — with no VAT-cache entry the VAT
strategy yields no NACE code, and the match falls through to method "none"
instead of "vat_lookup". -/
theorem vat_tier1_default_counterexample :
    getCountryFromVAT "SE999" = Option.some "SE" ∧
    dbAllFactors.findEmissionFactor (tier1BaseQuery "35.11" "SE") =
      Except.ok (Option.some factorWind) ∧
    (matchTransaction txVatOnly dbAllFactors Option.none DEFAULT_CONFIG).map
        (fun r => (r.method, r.tier)) =
      Except.ok (MatchMethod.none, (Option.none : Option Nat)) := by
  refine ⟨rfl, rfl, rfl⟩

/-- C7 amended: for a transaction whose VAT identifier has a recognized
prefix, whose VAT-cache entry is valid and supplies a NACE code, and whose
tier-1 lookup for that NACE code and the effective country returns a factor,
`matchTransaction` under the default configuration returns method
"vat_lookup", tier 1, confidence 0.95, `fallbackApplied = false`. -/
theorem vat_tier1_default_spec {ε} {t : Transaction} {db : DatabaseAdapter ε}
    {companyId : Option String} {v naceCode ec : String} {cached : VATCache}
    {factor : EmissionFactor}
    (hv : t.vat_number = Option.some v) (hvne : v ≠ "")
    (hcountry : jsTruthy (getCountryFromVAT v) = true)
    (hcache : db.getVATCache v = Except.ok (Option.some cached))
    (hvalid : cached.is_valid = true)
    (hnace : cached.nace_code = Option.some naceCode) (hncne : naceCode ≠ "")
    (hec : effectiveCountry t
      { naceCode := cached.nace_code
      , countryCode := jsOr (getCountryFromVAT v) cached.country_code } = Option.some ec)
    (hecne : ec ≠ "")
    (ht1 : getEmissionFactorTier1 naceCode ec db (extractProductHints t.description) =
      Except.ok (Option.some factor)) :
    ∃ r, matchTransaction t db companyId DEFAULT_CONFIG = Except.ok r ∧
      r.method = MatchMethod.vat_lookup ∧ r.tier = Option.some 1 ∧
      r.confidence = 95/100 ∧ r.fallbackApplied = false := by
  have hvm : matchByVAT t db DEFAULT_CONFIG = Except.ok
      { naceCode := cached.nace_code
      , countryCode := jsOr (getCountryFromVAT v) cached.country_code } :=
    matchByVAT_cached hv hvne rfl hcache hvalid
  have hvt : jsTruthy t.vat_number = true := by
    rw [hv]
    simpa [jsTruthy] using hvne
  have hfb : getEmissionFactorWithFallback naceCode db DEFAULT_CONFIG
      (effectiveCountry t
        { naceCode := cached.nace_code
        , countryCode := jsOr (getCountryFromVAT v) cached.country_code })
      (extractProductHints t.description) =
      Except.ok
        { factor := Option.some factor, tier := Option.some 1
        , reasoning := "Exact match: " ++ ec ++ " + NACE " ++ naceCode ++
            (match extractProductHints t.description with
             | [] => ""
             | hint :: _ => " + " ++ hint) } := by
    unfold getEmissionFactorWithFallback
    rw [hec]
    simp only
    rw [if_neg hecne, ht1]
  refine ⟨_, matchTransaction_vat_path hvt hvm hnace hncne hfb rfl, rfl, rfl, ?_, ?_⟩
  · show max 0 (min 1 (DEFAULT_CONFIG.methodConfidence.vat_lookup +
      tierAdjustmentOf DEFAULT_CONFIG (Option.some 1))) = 95/100
    have hz : tierAdjustmentOf DEFAULT_CONFIG (Option.some 1) = 0 := rfl
    have hb : DEFAULT_CONFIG.methodConfidence.vat_lookup = 95/100 := rfl
    rw [hz, hb, add_zero, min_eq_right (by norm_num : (95/100 : ℚ) ≤ 1),
        max_eq_right (by norm_num : (0 : ℚ) ≤ 95/100)]
  · rfl

/-- Witness for C7 amended: the concrete SE556036 scenario yields method
"vat_lookup", tier 1, confidence 0.95, no fallback. -/
theorem vat_tier1_default_spec_witness :
    ∃ r, matchTransaction txVat dbVat Option.none DEFAULT_CONFIG = Except.ok r ∧
      r.method = MatchMethod.vat_lookup ∧ r.tier = Option.some 1 ∧
      r.confidence = 95/100 ∧ r.fallbackApplied = false :=
  @vat_tier1_default_spec Unit txVat dbVat Option.none "SE556036" "35.11" "SE" cacheVatW
    factorWind
    rfl (by decide) (by decide) rfl rfl rfl (by decide) rfl (by decide) rfl


-- ===========================================================================
-- C8: repository errors propagate; misses never become errors
-- ===========================================================================

/-- The pre-linked factor id of an account mapping produced no result:
absent, empty, or the by-id lookup returned `null`
(matcher.ts lines 458-473 falling through). -/
def accountIdMiss {ε} (db : DatabaseAdapter ε) (am : AccountMatch) : Prop :=
  am.emissionFactorId = Option.none ∨ am.emissionFactorId = Option.some "" ∨
  ∃ efId, am.emissionFactorId = Option.some efId ∧ efId ≠ "" ∧
    db.getEmissionFactorById efId = Except.ok Option.none

/-- A candidate NACE code produced no factor: absent, empty, or the tier
resolver returned a null factor. -/
def naceCandidateMiss {ε} (db : DatabaseAdapter ε) (config : MatcherConfig)
    (countryCode : Option String) (productHints : List String)
    (naceOpt : Option String) : Prop :=
  naceOpt = Option.none ∨ naceOpt = Option.some "" ∨
  ∃ naceCode fb, naceOpt = Option.some naceCode ∧ naceCode ≠ "" ∧
    getEmissionFactorWithFallback naceCode db config countryCode productHints = Except.ok fb ∧
    fb.factor = Option.none

/-- Strategy 1 produced no factor (matcher.ts lines 421-452 falling
through): the VAT gate is closed, or `matchByVAT` succeeded without a
usable NACE code or without a resolving factor. -/
def vatStrategyMiss {ε} (t : Transaction) (db : DatabaseAdapter ε)
    (config : MatcherConfig) : Prop :=
  jsTruthy t.vat_number = false ∨
  ∃ vm, matchByVAT t db config = Except.ok vm ∧
    naceCandidateMiss db config (effectiveCountry t vm) (extractProductHints t.description)
      vm.naceCode

/-- Strategy 2 produced no factor (matcher.ts lines 455-502 falling
through). -/
def accountStrategyMiss {ε} (t : Transaction) (db : DatabaseAdapter ε)
    (companyId : Option String) (config : MatcherConfig)
    (countryCode : Option String) (productHints : List String) : Prop :=
  (jsTruthy t.account_code && jsTruthy companyId) = false ∨
  ∃ am, matchByAccountCode t companyId db = Except.ok am ∧
    accountIdMiss db am ∧
    naceCandidateMiss db config countryCode productHints am.naceCode

/-- An adapter none of whose operations ever signals an error. -/
def neverFails {ε} (db : DatabaseAdapter ε) : Prop :=
  (∀ q, ∃ o, db.findEmissionFactor q = Except.ok o) ∧
  (∀ q, ∃ l, db.findEmissionFactors q = Except.ok l) ∧
  (∀ i, ∃ o, db.getEmissionFactorById i = Except.ok o) ∧
  (∀ n, ∃ o, db.findNACEEmissionFactor n = Except.ok o) ∧
  (∀ v, ∃ o, db.getVATCache v = Except.ok o) ∧
  (∀ c a, ∃ o, db.getAccountMapping c a = Except.ok o) ∧
  (∀ s, ∃ o, db.getSupplierMapping s = Except.ok o) ∧
  (∀ i, ∃ u, db.incrementSupplierUsage i = Except.ok u)

/-- A repository whose VAT-cache lookup fails and whose other operations
all miss. -/
def dbCacheBoom : DatabaseAdapter String :=
  { findEmissionFactor := fun _ => Except.ok Option.none
  , findEmissionFactors := fun _ => Except.ok []
  , getEmissionFactorById := fun _ => Except.ok Option.none
  , findNACEEmissionFactor := fun _ => Except.ok Option.none
  , getVATCache := fun _ => Except.error "boom"
  , getAccountMapping := fun _ _ => Except.ok Option.none
  , getSupplierMapping := fun _ => Except.ok Option.none
  , incrementSupplierUsage := fun _ => Except.ok () }

/-- A VAT-cache error aborts `matchByVAT`. -/
theorem matchByVAT_cache_error {ε} {t : Transaction} {db : DatabaseAdapter ε}
    {config : MatcherConfig} {v : String} {e : ε}
    (hv : t.vat_number = Option.some v) (hvne : v ≠ "") (hcfg : config.cacheVAT = true)
    (hcache : db.getVATCache v = Except.error e) :
    matchByVAT t db config = Except.error e := by
  unfold matchByVAT
  rw [hv]
  simp only
  rw [if_neg hvne, if_pos hcfg, hcache]

/-- A supplier-mapping error aborts `matchBySupplierName`. -/
theorem matchBySupplierName_map_error {ε} {t : Transaction} {db : DatabaseAdapter ε}
    {config : MatcherConfig} {e : ε}
    (hsn : t.supplier_name ≠ "")
    (hmap : db.getSupplierMapping (normalizeSupplierName t.supplier_name) = Except.error e) :
    matchBySupplierName t db config = Except.error e := by
  unfold matchBySupplierName
  rw [if_neg hsn]
  simp only
  rw [hmap]

/-- A usage-increment error aborts `matchBySupplierName` even though the
mapping already supplied a NACE code. -/
theorem matchBySupplierName_increment_error {ε} {t : Transaction} {db : DatabaseAdapter ε}
    {config : MatcherConfig} {m : SupplierNACEMapping} {e : ε}
    (hsn : t.supplier_name ≠ "")
    (hmap : db.getSupplierMapping (normalizeSupplierName t.supplier_name) =
      Except.ok (Option.some m))
    (hlearn : config.enableLearning = true) (hid : m.id ≠ "")
    (hinc : db.incrementSupplierUsage m.id = Except.error e) :
    matchBySupplierName t db config = Except.error e := by
  unfold matchBySupplierName
  rw [if_neg hsn]
  simp only
  rw [hmap]
  simp only
  rw [if_pos (by simp [hlearn, hid]), hinc]

/-- An account-mapping error aborts `matchByAccountCode` when both gate
inputs are truthy. -/
theorem matchByAccountCode_error {ε} {t : Transaction} {companyId : Option String}
    {db : DatabaseAdapter ε} {e : ε}
    (ha : jsTruthy t.account_code = true) (hb : jsTruthy companyId = true)
    (hmap : db.getAccountMapping (showOptStr companyId) (showOptStr t.account_code) =
      Except.error e) :
    matchByAccountCode t companyId db = Except.error e := by
  unfold matchByAccountCode
  rw [ha, hb]
  simp only [Bool.not_true, Bool.or_self, Bool.false_eq_true, if_false]
  rw [hmap]

/-- An error of the hint query at any position of the hint list, after the
earlier hints all missed, aborts the tier-1 hint loop. -/
theorem tier1Loop_error_at {ε} (naceCode countryCode : String) (db : DatabaseAdapter ε)
    {e : ε} (hint : String) (rest : List String) :
    ∀ pre : List String,
      (∀ p ∈ pre, db.findEmissionFactor (tier1HintQuery naceCode countryCode p) =
        Except.ok Option.none) →
      db.findEmissionFactor (tier1HintQuery naceCode countryCode hint) = Except.error e →
      tier1Loop naceCode countryCode db (pre ++ hint :: rest) = Except.error e := by
  intro pre
  induction pre with
  | nil =>
    intro _ herr
    unfold tier1Loop
    rw [List.nil_append]
    simp only
    rw [herr]
  | cons p ps ih =>
    intro hpre herr
    unfold tier1Loop
    rw [List.cons_append]
    simp only
    rw [hpre p (List.mem_cons_self p ps)]
    exact ih (fun q hq => hpre q (List.mem_cons_of_mem p hq)) herr

/-- An error of the tier-1 hint loop aborts tier 1. -/
theorem tier1_error_of_loop {ε} {naceCode countryCode : String} {db : DatabaseAdapter ε}
    {productHints : List String} {e : ε}
    (hloop : tier1Loop naceCode countryCode db productHints = Except.error e) :
    getEmissionFactorTier1 naceCode countryCode db productHints = Except.error e := by
  unfold getEmissionFactorTier1
  by_cases hemp : productHints.isEmpty
  · rcases productHints with _ | ⟨h, l⟩
    · rw [show tier1Loop naceCode countryCode db [] = Except.ok Option.none from rfl] at hloop
      exact absurd hloop (by simp)
    · simp [List.isEmpty] at hemp
  · rw [if_neg hemp, hloop]

/-- An error of the hint-less base query, after the hint loop missed,
aborts tier 1. -/
theorem tier1_error_of_base {ε} {naceCode countryCode : String} {db : DatabaseAdapter ε}
    {productHints : List String} {e : ε}
    (hloop : tier1Loop naceCode countryCode db productHints = Except.ok Option.none)
    (hbase : db.findEmissionFactor (tier1BaseQuery naceCode countryCode) = Except.error e) :
    getEmissionFactorTier1 naceCode countryCode db productHints = Except.error e := by
  unfold getEmissionFactorTier1
  by_cases hemp : productHints.isEmpty
  · rw [if_pos hemp]
    simp only
    exact hbase
  · rw [if_neg hemp, hloop]
    simp only
    exact hbase

/-- Tier 2 errors exactly when its repository query errors. -/
theorem tier2_error_iff {ε} (naceCode countryCode : String) (db : DatabaseAdapter ε) (e : ε) :
    getEmissionFactorTier2 naceCode countryCode db = Except.error e ↔
      db.findEmissionFactors (tier2Query naceCode countryCode) = Except.error e := by
  unfold getEmissionFactorTier2
  cases hq : db.findEmissionFactors (tier2Query naceCode countryCode) with
  | error e' => simp
  | ok factors => cases factors <;> simp

/-- Tier 3 errors exactly when its repository query errors. -/
theorem tier3_error_iff {ε} (naceCode : String) (db : DatabaseAdapter ε) (e : ε) :
    getEmissionFactorTier3 naceCode db = Except.error e ↔
      db.findEmissionFactors (tier3Query naceCode) = Except.error e := by
  unfold getEmissionFactorTier3
  cases hq : db.findEmissionFactors (tier3Query naceCode) with
  | error e' => simp
  | ok factors => cases factors <;> simp

/-- Tier 4 errors exactly when its repository query errors. -/
theorem tier4_error_iff {ε} (naceCode : String) (db : DatabaseAdapter ε) (e : ε) :
    getEmissionFactorTier4 naceCode db = Except.error e ↔
      db.findNACEEmissionFactor naceCode = Except.error e := by
  unfold getEmissionFactorTier4
  cases hq : db.findNACEEmissionFactor naceCode with
  | error e' => simp
  | ok o => cases o <;> simp

/-- A tier-3 error aborts the tier-3/4 tail. -/
theorem fallbackTier34_tier3_error {ε} {naceCode : String} {db : DatabaseAdapter ε} {e : ε}
    (h3 : getEmissionFactorTier3 naceCode db = Except.error e) :
    fallbackTier34 naceCode db = Except.error e := by
  unfold fallbackTier34
  rw [h3]

/-- A tier-4 error after a tier-3 miss aborts the tier-3/4 tail. -/
theorem fallbackTier34_tier4_error {ε} {naceCode : String} {db : DatabaseAdapter ε} {e : ε}
    (h3 : getEmissionFactorTier3 naceCode db = Except.ok Option.none)
    (h4 : getEmissionFactorTier4 naceCode db = Except.error e) :
    fallbackTier34 naceCode db = Except.error e := by
  unfold fallbackTier34
  rw [h3]
  simp only
  rw [h4]

/-- With an unknown (non-truthy) country the fallback resolver is exactly
its tier-3/4 tail. -/
theorem fallback_eq_tier34_of_no_country {ε} {naceCode : String} {db : DatabaseAdapter ε}
    {config : MatcherConfig} {countryCode : Option String} {productHints : List String}
    (hcc : jsTruthy countryCode = false) :
    getEmissionFactorWithFallback naceCode db config countryCode productHints =
      fallbackTier34 naceCode db := by
  unfold getEmissionFactorWithFallback
  cases countryCode with
  | none => rfl
  | some cc =>
    simp only
    rw [if_pos]
    simpa [jsTruthy] using hcc

/-- With a known country whose tiers 1 and 2 both missed, the fallback
resolver is exactly its tier-3/4 tail. -/
theorem fallback_eq_tier34_of_tiers12_missed {ε} {naceCode cc : String}
    {db : DatabaseAdapter ε} {config : MatcherConfig} {productHints : List String}
    (hne : cc ≠ "")
    (h1 : getEmissionFactorTier1 naceCode cc db productHints = Except.ok Option.none)
    (h2 : getEmissionFactorTier2 naceCode cc db = Except.ok Option.none) :
    getEmissionFactorWithFallback naceCode db config (Option.some cc) productHints =
      fallbackTier34 naceCode db := by
  unfold getEmissionFactorWithFallback
  simp only
  rw [if_neg hne, h1]
  simp only
  rw [h2]

/-- A tier-1 error aborts the fallback resolver. -/
theorem fallback_tier1_error {ε} {naceCode cc : String} {db : DatabaseAdapter ε}
    {config : MatcherConfig} {productHints : List String} {e : ε}
    (hne : cc ≠ "")
    (h1 : getEmissionFactorTier1 naceCode cc db productHints = Except.error e) :
    getEmissionFactorWithFallback naceCode db config (Option.some cc) productHints =
      Except.error e := by
  unfold getEmissionFactorWithFallback
  simp only
  rw [if_neg hne, h1]

/-- A tier-2 error after a tier-1 miss aborts the fallback resolver. -/
theorem fallback_tier2_error {ε} {naceCode cc : String} {db : DatabaseAdapter ε}
    {config : MatcherConfig} {productHints : List String} {e : ε}
    (hne : cc ≠ "")
    (h1 : getEmissionFactorTier1 naceCode cc db productHints = Except.ok Option.none)
    (h2 : getEmissionFactorTier2 naceCode cc db = Except.error e) :
    getEmissionFactorWithFallback naceCode db config (Option.some cc) productHints =
      Except.error e := by
  unfold getEmissionFactorWithFallback
  simp only
  rw [if_neg hne, h1]
  simp only
  rw [h2]

/-- A `matchBySupplierName` error aborts strategy 3. -/
theorem strategy3Match_mbs_error {ε} {t : Transaction} {db : DatabaseAdapter ε}
    {config : MatcherConfig} {countryCode : Option String} {productHints : List String} {e : ε}
    (h : matchBySupplierName t db config = Except.error e) :
    strategy3Match t db config countryCode productHints = Except.error e := by
  unfold strategy3Match
  rw [h]

/-- A tier-resolver error on the supplier path aborts strategy 3. -/
theorem strategy3Match_fallback_error {ε} {t : Transaction} {db : DatabaseAdapter ε}
    {config : MatcherConfig} {countryCode : Option String} {productHints : List String}
    {naceCode : String} {e : ε}
    (hm : matchBySupplierName t db config = Except.ok (Option.some naceCode))
    (hne : naceCode ≠ "")
    (hfb : getEmissionFactorWithFallback naceCode db config countryCode productHints =
      Except.error e) :
    strategy3Match t db config countryCode productHints = Except.error e := by
  unfold strategy3Match
  rw [hm]
  simp only
  rw [if_neg hne, hfb]

/-- When the candidate NACE code misses, the NACE-code part of strategy 2 is
exactly strategy 3. -/
theorem strategy2Nace_miss_eq {ε} {t : Transaction} {db : DatabaseAdapter ε}
    {config : MatcherConfig} {countryCode : Option String} {productHints : List String}
    {naceOpt : Option String}
    (h : naceCandidateMiss db config countryCode productHints naceOpt) :
    strategy2Nace t db config countryCode productHints naceOpt =
      strategy3Match t db config countryCode productHints := by
  unfold strategy2Nace
  rcases h with h | h | ⟨naceCode, fb, heq, hne, hfb, hf⟩
  · rw [h]
  · rw [h]
    simp only [if_true]
  · rw [heq]
    simp only
    rw [if_neg hne, hfb]
    simp only
    rw [hf]

/-- A tier-resolver error on a truthy candidate NACE code aborts the
NACE-code part of strategy 2. -/
theorem strategy2Nace_fallback_error {ε} {t : Transaction} {db : DatabaseAdapter ε}
    {config : MatcherConfig} {countryCode : Option String} {productHints : List String}
    {naceCode : String} {e : ε}
    (hne : naceCode ≠ "")
    (hfb : getEmissionFactorWithFallback naceCode db config countryCode productHints =
      Except.error e) :
    strategy2Nace t db config countryCode productHints (Option.some naceCode) =
      Except.error e := by
  unfold strategy2Nace
  simp only
  rw [if_neg hne, hfb]

/-- With the account gate open, a successful mapping and a missing
pre-linked factor, strategy 2 continues at its NACE-code part. -/
theorem strategy2Match_nace_step {ε} {t : Transaction} {db : DatabaseAdapter ε}
    {companyId : Option String} {config : MatcherConfig} {countryCode : Option String}
    {productHints : List String} {am : AccountMatch}
    (ha : jsTruthy t.account_code = true) (hb : jsTruthy companyId = true)
    (ham : matchByAccountCode t companyId db = Except.ok am)
    (hid : accountIdMiss db am) :
    strategy2Match t db companyId config countryCode productHints =
      strategy2Nace t db config countryCode productHints am.naceCode := by
  unfold strategy2Match
  rw [if_pos (by simp [ha, hb]), ham]
  simp only
  rcases hid with h | h | ⟨efId, heq, hne, hbyid⟩
  · rw [h]
  · rw [h]
    simp only [if_true]
  · rw [heq]
    simp only
    rw [if_neg hne, hbyid]

/-- When strategy 2 misses, it is exactly strategy 3. -/
theorem strategy2Match_miss_eq {ε} {t : Transaction} {db : DatabaseAdapter ε}
    {companyId : Option String} {config : MatcherConfig} {countryCode : Option String}
    {productHints : List String}
    (h : accountStrategyMiss t db companyId config countryCode productHints) :
    strategy2Match t db companyId config countryCode productHints =
      strategy3Match t db config countryCode productHints := by
  rcases h with h | ⟨am, ham, hid, hnace⟩
  · unfold strategy2Match
    rw [if_neg (by simp [h])]
  · by_cases hgate : (jsTruthy t.account_code && jsTruthy companyId) = true
    · obtain ⟨ha, hb⟩ := Bool.and_eq_true_iff.mp hgate
      rw [strategy2Match_nace_step ha hb ham hid, strategy2Nace_miss_eq hnace]
    · unfold strategy2Match
      rw [if_neg hgate]

/-- An account-mapping error with an open gate aborts strategy 2. -/
theorem strategy2Match_account_error {ε} {t : Transaction} {db : DatabaseAdapter ε}
    {companyId : Option String} {config : MatcherConfig} {countryCode : Option String}
    {productHints : List String} {e : ε}
    (ha : jsTruthy t.account_code = true) (hb : jsTruthy companyId = true)
    (hmap : db.getAccountMapping (showOptStr companyId) (showOptStr t.account_code) =
      Except.error e) :
    strategy2Match t db companyId config countryCode productHints = Except.error e := by
  unfold strategy2Match
  rw [if_pos (by simp [ha, hb]), matchByAccountCode_error ha hb hmap]

/-- A by-id lookup error on a truthy pre-linked factor id aborts
strategy 2. -/
theorem strategy2Match_byId_error {ε} {t : Transaction} {db : DatabaseAdapter ε}
    {companyId : Option String} {config : MatcherConfig} {countryCode : Option String}
    {productHints : List String} {am : AccountMatch} {efId : String} {e : ε}
    (ha : jsTruthy t.account_code = true) (hb : jsTruthy companyId = true)
    (ham : matchByAccountCode t companyId db = Except.ok am)
    (hef : am.emissionFactorId = Option.some efId) (hne : efId ≠ "")
    (hbyid : db.getEmissionFactorById efId = Except.error e) :
    strategy2Match t db companyId config countryCode productHints = Except.error e := by
  unfold strategy2Match
  rw [if_pos (by simp [ha, hb]), ham]
  simp only
  rw [hef]
  simp only
  rw [if_neg hne, hbyid]

/-- A `matchByVAT` error aborts the whole call. -/
theorem matchTransaction_vat_error {ε} {t : Transaction} {db : DatabaseAdapter ε}
    {companyId : Option String} {config : MatcherConfig} {e : ε}
    (hv : jsTruthy t.vat_number = true)
    (hvm : matchByVAT t db config = Except.error e) :
    matchTransaction t db companyId config = Except.error e := by
  unfold matchTransaction
  rw [if_pos hv, hvm]

/-- A tier-resolver error on the VAT path aborts the whole call. -/
theorem matchTransaction_fallback_error {ε} {t : Transaction} {db : DatabaseAdapter ε}
    {companyId : Option String} {config : MatcherConfig} {vm : VATMatch}
    {naceCode : String} {e : ε}
    (hv : jsTruthy t.vat_number = true)
    (hvm : matchByVAT t db config = Except.ok vm)
    (hnc : vm.naceCode = Option.some naceCode) (hne : naceCode ≠ "")
    (hfb : getEmissionFactorWithFallback naceCode db config (effectiveCountry t vm)
      (extractProductHints t.description) = Except.error e) :
    matchTransaction t db companyId config = Except.error e := by
  unfold matchTransaction
  rw [if_pos hv, hvm]
  simp only
  rw [hnc]
  simp only
  rw [if_neg hne, hfb]

/-- When strategy 1 misses, the whole call continues as strategy 2 (at the
working country the miss determined). -/
theorem matchTransaction_miss_eq {ε} {t : Transaction} {db : DatabaseAdapter ε}
    {companyId : Option String} {config : MatcherConfig}
    (h : vatStrategyMiss t db config) :
    ∃ cc, matchTransaction t db companyId config =
      strategy2Match t db companyId config cc (extractProductHints t.description) := by
  by_cases hv : jsTruthy t.vat_number = true
  · rcases h with h | ⟨vm, hvm, hnace⟩
    · rw [hv] at h
      exact absurd h (by simp)
    · refine ⟨effectiveCountry t vm, ?_⟩
      unfold matchTransaction
      rw [if_pos hv, hvm]
      simp only
      rcases hnace with h | h | ⟨naceCode, fb, heq, hne, hfb, hf⟩
      · rw [h]
      · rw [h]
        simp only [if_true]
      · rw [heq]
        simp only
        rw [if_neg hne, hfb]
        simp only
        rw [hf]
  · refine ⟨t.supplier_country, ?_⟩
    unfold matchTransaction
    rw [if_neg hv]

/-- An error of the tier-1 hint loop originates at one of the hint
queries. -/
theorem tier1Loop_error_sources {ε} {naceCode countryCode : String} {db : DatabaseAdapter ε}
    {e : ε} :
    ∀ {productHints : List String},
      tier1Loop naceCode countryCode db productHints = Except.error e →
      ∃ hint ∈ productHints,
        db.findEmissionFactor (tier1HintQuery naceCode countryCode hint) = Except.error e := by
  intro hints
  induction hints with
  | nil => intro hx; exact absurd hx (by simp [tier1Loop])
  | cons hd tl ih =>
    intro hx
    unfold tier1Loop at hx
    cases hq : db.findEmissionFactor (tier1HintQuery naceCode countryCode hd) with
    | error e' =>
      rw [hq] at hx
      simp only at hx
      injection hx with hx
      subst hx
      exact ⟨hd, List.mem_cons_self hd tl, hq⟩
    | ok o =>
      rw [hq] at hx
      cases o with
      | some f => simp at hx
      | none =>
        simp only at hx
        obtain ⟨hint, hmem, herr⟩ := ih hx
        exact ⟨hint, List.mem_cons_of_mem hd hmem, herr⟩

/-- An error of tier 1 originates at a hint query or at the hint-less base
query. -/
theorem tier1_error_sources {ε} {naceCode countryCode : String} {db : DatabaseAdapter ε}
    {productHints : List String} {e : ε}
    (hx : getEmissionFactorTier1 naceCode countryCode db productHints = Except.error e) :
    (∃ hint ∈ productHints,
      db.findEmissionFactor (tier1HintQuery naceCode countryCode hint) = Except.error e) ∨
    db.findEmissionFactor (tier1BaseQuery naceCode countryCode) = Except.error e := by
  unfold getEmissionFactorTier1 at hx
  by_cases hemp : productHints.isEmpty
  · rw [if_pos hemp] at hx
    simp only at hx
    exact Or.inr hx
  · rw [if_neg hemp] at hx
    cases hl : tier1Loop naceCode countryCode db productHints with
    | error e' =>
      rw [hl] at hx
      simp only at hx
      injection hx with hx
      subst hx
      exact Or.inl (tier1Loop_error_sources hl)
    | ok o =>
      rw [hl] at hx
      cases o with
      | some f => simp at hx
      | none =>
        simp only at hx
        exact Or.inr hx

/-- Tier 1 cannot fail over an adapter whose `findEmissionFactor` never
fails. -/
theorem getEmissionFactorTier1_ok {ε} (naceCode countryCode : String) (db : DatabaseAdapter ε)
    (productHints : List String)
    (h1 : ∀ q, ∃ o, db.findEmissionFactor q = Except.ok o) :
    ∃ o, getEmissionFactorTier1 naceCode countryCode db productHints = Except.ok o := by
  cases hx : getEmissionFactorTier1 naceCode countryCode db productHints with
  | ok o => exact ⟨o, rfl⟩
  | error e =>
    exfalso
    rcases tier1_error_sources hx with ⟨hint, _, herr⟩ | herr
    · obtain ⟨o, ho⟩ := h1 (tier1HintQuery naceCode countryCode hint)
      rw [ho] at herr
      exact absurd herr (by simp)
    · obtain ⟨o, ho⟩ := h1 (tier1BaseQuery naceCode countryCode)
      rw [ho] at herr
      exact absurd herr (by simp)

/-- Tier 2 cannot fail over an adapter whose `findEmissionFactors` never
fails. -/
theorem getEmissionFactorTier2_ok {ε} (naceCode countryCode : String) (db : DatabaseAdapter ε)
    (h2 : ∀ q, ∃ l, db.findEmissionFactors q = Except.ok l) :
    ∃ o, getEmissionFactorTier2 naceCode countryCode db = Except.ok o := by
  cases hx : getEmissionFactorTier2 naceCode countryCode db with
  | ok o => exact ⟨o, rfl⟩
  | error e =>
    obtain ⟨l, hl⟩ := h2 (tier2Query naceCode countryCode)
    rw [(tier2_error_iff naceCode countryCode db e).mp hx] at hl
    exact absurd hl (by simp)

/-- Tier 3 cannot fail over an adapter whose `findEmissionFactors` never
fails. -/
theorem getEmissionFactorTier3_ok {ε} (naceCode : String) (db : DatabaseAdapter ε)
    (h2 : ∀ q, ∃ l, db.findEmissionFactors q = Except.ok l) :
    ∃ o, getEmissionFactorTier3 naceCode db = Except.ok o := by
  cases hx : getEmissionFactorTier3 naceCode db with
  | ok o => exact ⟨o, rfl⟩
  | error e =>
    obtain ⟨l, hl⟩ := h2 (tier3Query naceCode)
    rw [(tier3_error_iff naceCode db e).mp hx] at hl
    exact absurd hl (by simp)

/-- Tier 4 cannot fail over an adapter whose `findNACEEmissionFactor` never
fails. -/
theorem getEmissionFactorTier4_ok {ε} (naceCode : String) (db : DatabaseAdapter ε)
    (h4 : ∀ n, ∃ o, db.findNACEEmissionFactor n = Except.ok o) :
    ∃ o, getEmissionFactorTier4 naceCode db = Except.ok o := by
  cases hx : getEmissionFactorTier4 naceCode db with
  | ok o => exact ⟨o, rfl⟩
  | error e =>
    obtain ⟨o, ho⟩ := h4 naceCode
    rw [(tier4_error_iff naceCode db e).mp hx] at ho
    exact absurd ho (by simp)

/-- The tier-3/4 tail cannot fail over an adapter whose factor queries never
fail. -/
theorem fallbackTier34_ok {ε} (naceCode : String) (db : DatabaseAdapter ε)
    (h2 : ∀ q, ∃ l, db.findEmissionFactors q = Except.ok l)
    (h4 : ∀ n, ∃ o, db.findNACEEmissionFactor n = Except.ok o) :
    ∃ r, fallbackTier34 naceCode db = Except.ok r := by
  obtain ⟨o3, ho3⟩ := getEmissionFactorTier3_ok naceCode db h2
  cases o3 with
  | some f => exact ⟨_, by unfold fallbackTier34; rw [ho3]⟩
  | none =>
    obtain ⟨o4, ho4⟩ := getEmissionFactorTier4_ok naceCode db h4
    cases o4 with
    | some f =>
      exact ⟨_, by unfold fallbackTier34; rw [ho3]; simp only; rw [ho4]⟩
    | none =>
      exact ⟨_, by unfold fallbackTier34; rw [ho3]; simp only; rw [ho4]⟩

/-- The fallback resolver cannot fail over an adapter whose factor queries
never fail. -/
theorem fallback_ok {ε} (naceCode : String) (db : DatabaseAdapter ε) (config : MatcherConfig)
    (countryCode : Option String) (productHints : List String)
    (h1 : ∀ q, ∃ o, db.findEmissionFactor q = Except.ok o)
    (h2 : ∀ q, ∃ l, db.findEmissionFactors q = Except.ok l)
    (h4 : ∀ n, ∃ o, db.findNACEEmissionFactor n = Except.ok o) :
    ∃ r, getEmissionFactorWithFallback naceCode db config countryCode productHints =
      Except.ok r := by
  cases countryCode with
  | none =>
    obtain ⟨r, hr⟩ := fallbackTier34_ok naceCode db h2 h4
    exact ⟨r, by unfold getEmissionFactorWithFallback; exact hr⟩
  | some cc =>
    by_cases hemp : cc = ""
    · obtain ⟨r, hr⟩ := fallbackTier34_ok naceCode db h2 h4
      exact ⟨r, by unfold getEmissionFactorWithFallback; simp only; rw [if_pos hemp]; exact hr⟩
    · obtain ⟨o1, ho1⟩ := getEmissionFactorTier1_ok naceCode cc db productHints h1
      cases o1 with
      | some f =>
        exact ⟨_, by unfold getEmissionFactorWithFallback; simp only; rw [if_neg hemp, ho1]⟩
      | none =>
        obtain ⟨o2, ho2⟩ := getEmissionFactorTier2_ok naceCode cc db h2
        cases o2 with
        | some f =>
          exact ⟨_, by
            unfold getEmissionFactorWithFallback
            simp only
            rw [if_neg hemp, ho1]
            simp only
            rw [ho2]⟩
        | none =>
          obtain ⟨r, hr⟩ := fallbackTier34_ok naceCode db h2 h4
          exact ⟨r, by
            unfold getEmissionFactorWithFallback
            simp only
            rw [if_neg hemp, ho1]
            simp only
            rw [ho2]
            exact hr⟩

/-- `matchByVAT` cannot fail over an adapter whose VAT-cache lookup never
fails. -/
theorem matchByVAT_ok {ε} (t : Transaction) (db : DatabaseAdapter ε) (config : MatcherConfig)
    (h5 : ∀ v, ∃ o, db.getVATCache v = Except.ok o) :
    ∃ vm, matchByVAT t db config = Except.ok vm := by
  unfold matchByVAT
  cases t.vat_number with
  | none => exact ⟨_, rfl⟩
  | some v =>
    simp only
    by_cases hvne : v = ""
    · rw [if_pos hvne]
      exact ⟨_, rfl⟩
    · rw [if_neg hvne]
      by_cases hc : config.cacheVAT = true
      · rw [if_pos hc]
        obtain ⟨o, ho⟩ := h5 v
        cases o with
        | none => exact ⟨_, by rw [ho]⟩
        | some cached =>
          by_cases hvalid : cached.is_valid = true
          · exact ⟨_, by rw [ho]; simp only; rw [if_pos hvalid]⟩
          · exact ⟨_, by rw [ho]; simp only; rw [if_neg hvalid]⟩
      · rw [if_neg hc]
        exact ⟨_, rfl⟩

/-- `matchByAccountCode` cannot fail over an adapter whose account-mapping
lookup never fails. -/
theorem matchByAccountCode_ok {ε} (t : Transaction) (companyId : Option String)
    (db : DatabaseAdapter ε)
    (h6 : ∀ c a, ∃ o, db.getAccountMapping c a = Except.ok o) :
    ∃ am, matchByAccountCode t companyId db = Except.ok am := by
  unfold matchByAccountCode
  by_cases hgate : (!jsTruthy t.account_code || !jsTruthy companyId) = true
  · rw [if_pos hgate]
    exact ⟨_, rfl⟩
  · rw [if_neg hgate]
    obtain ⟨o, ho⟩ := h6 (showOptStr companyId) (showOptStr t.account_code)
    cases o with
    | none => exact ⟨_, by rw [ho]⟩
    | some mapping => exact ⟨_, by rw [ho]⟩

/-- `matchBySupplierName` cannot fail over an adapter whose supplier-mapping
lookup and usage increment never fail. -/
theorem matchBySupplierName_ok {ε} (t : Transaction) (db : DatabaseAdapter ε)
    (config : MatcherConfig)
    (h7 : ∀ s, ∃ o, db.getSupplierMapping s = Except.ok o)
    (h8 : ∀ i, ∃ u, db.incrementSupplierUsage i = Except.ok u) :
    ∃ o, matchBySupplierName t db config = Except.ok o := by
  unfold matchBySupplierName
  by_cases hs : t.supplier_name = ""
  · rw [if_pos hs]
    exact ⟨_, rfl⟩
  · rw [if_neg hs]
    simp only
    obtain ⟨o, ho⟩ := h7 (normalizeSupplierName t.supplier_name)
    cases o with
    | none => exact ⟨_, by rw [ho]⟩
    | some mapping =>
      by_cases hlearn : (config.enableLearning && mapping.id != "") = true
      · obtain ⟨u, hu⟩ := h8 mapping.id
        exact ⟨_, by rw [ho]; simp only; rw [if_pos hlearn, hu]⟩
      · exact ⟨_, by rw [ho]; simp only; rw [if_neg hlearn]⟩

/-- Strategy 3 cannot fail over an adapter that never fails. -/
theorem strategy3Match_ok {ε} (t : Transaction) (db : DatabaseAdapter ε)
    (config : MatcherConfig) (countryCode : Option String) (productHints : List String)
    (h : neverFails db) :
    ∃ r, strategy3Match t db config countryCode productHints = Except.ok r := by
  obtain ⟨h1, h2, h3, h4, h5, h6, h7, h8⟩ := h
  obtain ⟨o, ho⟩ := matchBySupplierName_ok t db config h7 h8
  cases o with
  | none => exact ⟨noMatchResult, by unfold strategy3Match; rw [ho]⟩
  | some naceCode =>
    by_cases hne : naceCode = ""
    · exact ⟨noMatchResult, by unfold strategy3Match; rw [ho]; simp only; rw [if_pos hne]⟩
    · obtain ⟨fb, hfb⟩ := fallback_ok naceCode db config countryCode productHints h1 h2 h4
      cases hf : fb.factor with
      | none =>
        exact ⟨noMatchResult, by
          unfold strategy3Match
          rw [ho]
          simp only
          rw [if_neg hne, hfb]
          simp only
          rw [hf]⟩
      | some factor =>
        exact ⟨_, by
          unfold strategy3Match
          rw [ho]
          simp only
          rw [if_neg hne, hfb]
          simp only
          rw [hf]⟩

/-- The NACE-code part of strategy 2 cannot fail over an adapter that never
fails. -/
theorem strategy2Nace_ok {ε} (t : Transaction) (db : DatabaseAdapter ε)
    (config : MatcherConfig) (countryCode : Option String) (productHints : List String)
    (naceOpt : Option String) (h : neverFails db) :
    ∃ r, strategy2Nace t db config countryCode productHints naceOpt = Except.ok r := by
  cases naceOpt with
  | none =>
    obtain ⟨r, hr⟩ := strategy3Match_ok t db config countryCode productHints h
    exact ⟨r, by unfold strategy2Nace; exact hr⟩
  | some naceCode =>
    by_cases hne : naceCode = ""
    · obtain ⟨r, hr⟩ := strategy3Match_ok t db config countryCode productHints h
      exact ⟨r, by unfold strategy2Nace; simp only; rw [if_pos hne]; exact hr⟩
    · obtain ⟨h1, h2, h3, h4, h5, h6, h7, h8⟩ := h
      obtain ⟨fb, hfb⟩ := fallback_ok naceCode db config countryCode productHints h1 h2 h4
      cases hf : fb.factor with
      | none =>
        obtain ⟨r, hr⟩ := strategy3Match_ok t db config countryCode productHints
          ⟨h1, h2, h3, h4, h5, h6, h7, h8⟩
        exact ⟨r, by
          unfold strategy2Nace
          simp only
          rw [if_neg hne, hfb]
          simp only
          rw [hf]
          exact hr⟩
      | some factor =>
        exact ⟨_, by
          unfold strategy2Nace
          simp only
          rw [if_neg hne, hfb]
          simp only
          rw [hf]⟩

/-- Strategy 2 cannot fail over an adapter that never fails. -/
theorem strategy2Match_ok {ε} (t : Transaction) (db : DatabaseAdapter ε)
    (companyId : Option String) (config : MatcherConfig) (countryCode : Option String)
    (productHints : List String) (h : neverFails db) :
    ∃ r, strategy2Match t db companyId config countryCode productHints = Except.ok r := by
  by_cases hgate : (jsTruthy t.account_code && jsTruthy companyId) = true
  · obtain ⟨am, ham⟩ := matchByAccountCode_ok t companyId db h.2.2.2.2.2.1
    cases hef : am.emissionFactorId with
    | none =>
      obtain ⟨r, hr⟩ := strategy2Nace_ok t db config countryCode productHints am.naceCode h
      exact ⟨r, by
        unfold strategy2Match
        rw [if_pos hgate, ham]
        simp only
        rw [hef]
        exact hr⟩
    | some efId =>
      by_cases hne : efId = ""
      · obtain ⟨r, hr⟩ := strategy2Nace_ok t db config countryCode productHints am.naceCode h
        exact ⟨r, by
          unfold strategy2Match
          rw [if_pos hgate, ham]
          simp only
          rw [hef]
          simp only
          rw [if_pos hne]
          exact hr⟩
      · obtain ⟨o, ho⟩ := h.2.2.1 efId
        cases o with
        | none =>
          obtain ⟨r, hr⟩ := strategy2Nace_ok t db config countryCode productHints am.naceCode h
          exact ⟨r, by
            unfold strategy2Match
            rw [if_pos hgate, ham]
            simp only
            rw [hef]
            simp only
            rw [if_neg hne, ho]
            exact hr⟩
        | some factor =>
          exact ⟨_, by
            unfold strategy2Match
            rw [if_pos hgate, ham]
            simp only
            rw [hef]
            simp only
            rw [if_neg hne, ho]⟩
  · obtain ⟨r, hr⟩ := strategy3Match_ok t db config countryCode productHints h
    exact ⟨r, by unfold strategy2Match; rw [if_neg hgate]; exact hr⟩

/-- `matchTransaction` cannot fail over an adapter that never fails: a
repository answering every lookup (with a value, null or the empty set)
always yields a `MatchResult`. -/
theorem matchTransaction_ok {ε} (t : Transaction) (db : DatabaseAdapter ε)
    (companyId : Option String) (config : MatcherConfig) (h : neverFails db) :
    ∃ r, matchTransaction t db companyId config = Except.ok r := by
  by_cases hv : jsTruthy t.vat_number = true
  · obtain ⟨vm, hvm⟩ := matchByVAT_ok t db config h.2.2.2.2.1
    cases hnc : vm.naceCode with
    | none =>
      obtain ⟨r, hr⟩ := strategy2Match_ok t db companyId config (effectiveCountry t vm)
        (extractProductHints t.description) h
      exact ⟨r, by
        unfold matchTransaction
        rw [if_pos hv, hvm]
        simp only
        rw [hnc]
        exact hr⟩
    | some naceCode =>
      by_cases hne : naceCode = ""
      · obtain ⟨r, hr⟩ := strategy2Match_ok t db companyId config (effectiveCountry t vm)
          (extractProductHints t.description) h
        exact ⟨r, by
          unfold matchTransaction
          rw [if_pos hv, hvm]
          simp only
          rw [hnc]
          simp only
          rw [if_pos hne]
          exact hr⟩
      · obtain ⟨fb, hfb⟩ := fallback_ok naceCode db config (effectiveCountry t vm)
          (extractProductHints t.description) h.1 h.2.1 h.2.2.2.1
        cases hf : fb.factor with
        | none =>
          obtain ⟨r, hr⟩ := strategy2Match_ok t db companyId config (effectiveCountry t vm)
            (extractProductHints t.description) h
          exact ⟨r, by
            unfold matchTransaction
            rw [if_pos hv, hvm]
            simp only
            rw [hnc]
            simp only
            rw [if_neg hne, hfb]
            simp only
            rw [hf]
            exact hr⟩
        | some factor =>
          exact ⟨_, by
            unfold matchTransaction
            rw [if_pos hv, hvm]
            simp only
            rw [hnc]
            simp only
            rw [if_neg hne, hfb]
            simp only
            rw [hf]⟩
  · obtain ⟨r, hr⟩ := strategy2Match_ok t db companyId config t.supplier_country
      (extractProductHints t.description) h
    exact ⟨r, by unfold matchTransaction; rw [if_neg hv]; exact hr⟩

/-- C8: over an arbitrary repository adapter, an error signalled by any
reached repository operation aborts resolution with that same error — the
VAT-cache lookup, the tier queries behind the resolver on each strategy's
path, the account-mapping lookup, the by-id lookup, the supplier-mapping
lookup and even the usage-increment side effect — and a strategy that
produced no factor hands over to the next strategy unchanged, so no error is
ever caught and converted into a `MatchResult`; conversely an adapter that
never signals an error always yields a `MatchResult`: null/empty answers are
recoverable misses, never errors. -/
theorem repository_error_spec {ε} (db : DatabaseAdapter ε) (e : ε) (t : Transaction)
    (companyId : Option String) (config : MatcherConfig) :
    (∀ v, t.vat_number = Option.some v → v ≠ "" → config.cacheVAT = true →
      db.getVATCache v = Except.error e →
      matchTransaction t db companyId config = Except.error e) ∧
    (∀ vm naceCode, jsTruthy t.vat_number = true →
      matchByVAT t db config = Except.ok vm →
      vm.naceCode = Option.some naceCode → naceCode ≠ "" →
      getEmissionFactorWithFallback naceCode db config (effectiveCountry t vm)
        (extractProductHints t.description) = Except.error e →
      matchTransaction t db companyId config = Except.error e) ∧
    (vatStrategyMiss t db config →
      ∃ cc, matchTransaction t db companyId config =
        strategy2Match t db companyId config cc (extractProductHints t.description)) ∧
    (∀ cc hints, jsTruthy t.account_code = true → jsTruthy companyId = true →
      db.getAccountMapping (showOptStr companyId) (showOptStr t.account_code) =
        Except.error e →
      strategy2Match t db companyId config cc hints = Except.error e) ∧
    (∀ cc hints am efId, jsTruthy t.account_code = true → jsTruthy companyId = true →
      matchByAccountCode t companyId db = Except.ok am →
      am.emissionFactorId = Option.some efId → efId ≠ "" →
      db.getEmissionFactorById efId = Except.error e →
      strategy2Match t db companyId config cc hints = Except.error e) ∧
    (∀ cc hints am naceCode, jsTruthy t.account_code = true → jsTruthy companyId = true →
      matchByAccountCode t companyId db = Except.ok am →
      accountIdMiss db am →
      am.naceCode = Option.some naceCode → naceCode ≠ "" →
      getEmissionFactorWithFallback naceCode db config cc hints = Except.error e →
      strategy2Match t db companyId config cc hints = Except.error e) ∧
    (∀ cc hints, accountStrategyMiss t db companyId config cc hints →
      strategy2Match t db companyId config cc hints = strategy3Match t db config cc hints) ∧
    (∀ cc hints, t.supplier_name ≠ "" →
      db.getSupplierMapping (normalizeSupplierName t.supplier_name) = Except.error e →
      strategy3Match t db config cc hints = Except.error e) ∧
    (∀ cc hints m, t.supplier_name ≠ "" →
      db.getSupplierMapping (normalizeSupplierName t.supplier_name) =
        Except.ok (Option.some m) →
      config.enableLearning = true → m.id ≠ "" →
      db.incrementSupplierUsage m.id = Except.error e →
      strategy3Match t db config cc hints = Except.error e) ∧
    (∀ cc hints naceCode,
      matchBySupplierName t db config = Except.ok (Option.some naceCode) → naceCode ≠ "" →
      getEmissionFactorWithFallback naceCode db config cc hints = Except.error e →
      strategy3Match t db config cc hints = Except.error e) ∧
    (∀ naceCode cc hints,
      (cc ≠ "" → getEmissionFactorTier1 naceCode cc db hints = Except.error e →
        getEmissionFactorWithFallback naceCode db config (Option.some cc) hints =
          Except.error e) ∧
      (cc ≠ "" → getEmissionFactorTier1 naceCode cc db hints = Except.ok Option.none →
        db.findEmissionFactors (tier2Query naceCode cc) = Except.error e →
        getEmissionFactorWithFallback naceCode db config (Option.some cc) hints =
          Except.error e) ∧
      (∀ ccOpt, jsTruthy ccOpt = false →
        db.findEmissionFactors (tier3Query naceCode) = Except.error e →
        getEmissionFactorWithFallback naceCode db config ccOpt hints = Except.error e) ∧
      (∀ ccOpt, jsTruthy ccOpt = false →
        db.findEmissionFactors (tier3Query naceCode) = Except.ok [] →
        db.findNACEEmissionFactor naceCode = Except.error e →
        getEmissionFactorWithFallback naceCode db config ccOpt hints = Except.error e)) ∧
    (neverFails db → ∃ r, matchTransaction t db companyId config = Except.ok r) := by
  refine ⟨?_, ?_, ?_, ?_, ?_, ?_, ?_, ?_, ?_, ?_, ?_, ?_⟩
  · intro v hv hvne hcfg hcache
    have hvt : jsTruthy t.vat_number = true := by
      rw [hv]
      simpa [jsTruthy] using hvne
    exact matchTransaction_vat_error hvt (matchByVAT_cache_error hv hvne hcfg hcache)
  · intro vm naceCode hv hvm hnc hne hfb
    exact matchTransaction_fallback_error hv hvm hnc hne hfb
  · intro hmiss
    exact matchTransaction_miss_eq hmiss
  · intro cc hints ha hb hmap
    exact strategy2Match_account_error ha hb hmap
  · intro cc hints am efId ha hb ham hef hne hbyid
    exact strategy2Match_byId_error ha hb ham hef hne hbyid
  · intro cc hints am naceCode ha hb ham hid hnace hne hfb
    rw [strategy2Match_nace_step ha hb ham hid, hnace]
    exact strategy2Nace_fallback_error hne hfb
  · intro cc hints hmiss
    exact strategy2Match_miss_eq hmiss
  · intro cc hints hsn hmap
    exact strategy3Match_mbs_error (matchBySupplierName_map_error hsn hmap)
  · intro cc hints m hsn hmap hlearn hid hinc
    exact strategy3Match_mbs_error
      (matchBySupplierName_increment_error hsn hmap hlearn hid hinc)
  · intro cc hints naceCode hm hne hfb
    exact strategy3Match_fallback_error hm hne hfb
  · intro naceCode cc hints
    refine ⟨?_, ?_, ?_, ?_⟩
    · intro hne h1
      exact fallback_tier1_error hne h1
    · intro hne h1 h2
      exact fallback_tier2_error hne h1 ((tier2_error_iff naceCode cc db e).mpr h2)
    · intro ccOpt hcc h3
      rw [fallback_eq_tier34_of_no_country hcc]
      exact fallbackTier34_tier3_error ((tier3_error_iff naceCode db e).mpr h3)
    · intro ccOpt hcc h3 h4
      rw [fallback_eq_tier34_of_no_country hcc]
      exact fallbackTier34_tier4_error ((tier3_none_iff naceCode db).mpr h3)
        ((tier4_error_iff naceCode db e).mpr h4)
  · intro hnf
    exact matchTransaction_ok t db companyId config hnf

/-- Witness for C8: a failing VAT-cache lookup aborts the concrete
transaction with the error "boom" even though every other operation answers;
the all-empty adapter (which never errors) yields a result. -/
theorem repository_error_spec_witness :
    matchTransaction txVat dbCacheBoom Option.none DEFAULT_CONFIG = Except.error "boom" ∧
    ∃ r, matchTransaction txPlain dbEmptyW Option.none DEFAULT_CONFIG = Except.ok r := by
  constructor
  · exact (repository_error_spec dbCacheBoom "boom" txVat Option.none DEFAULT_CONFIG).1
      "SE556036" rfl (by decide) rfl rfl
  · exact (repository_error_spec dbEmptyW () txPlain Option.none
      DEFAULT_CONFIG).2.2.2.2.2.2.2.2.2.2.2
      ⟨fun q => ⟨Option.none, rfl⟩, fun q => ⟨[], rfl⟩, fun i => ⟨Option.none, rfl⟩,
       fun n => ⟨Option.none, rfl⟩, fun v => ⟨Option.none, rfl⟩,
       fun c a => ⟨Option.none, rfl⟩, fun s => ⟨Option.none, rfl⟩, fun i => ⟨(), rfl⟩⟩
